import Mathlib

/-!
The spoutsrc element: connection state machine and frame acquisition.

A shallow embedding of `src/gstspoutsrc.cpp` (the GStreamer `spoutsrc` element).

* The private structure `GstSpoutSrcPrivate` becomes a Lean structure; pointers
  are kept as "is it non-null" booleans, counters as naturals reduced modulo
  their machine width where the source increments them.
* Every call into a collaborator (the Spout SDK, the D3D11 device, the buffer
  pool, the pipeline clock) takes its answer from an explicit environment
  record, and is logged in a trace of `Call`s, so that "which calls were made,
  in which order" is a property of the returned value.
* Frame rates are `double` in the source.  They are embedded as rationals: the
  rationals contain every finite `double`.  The source compares rates with
  `0.0` and `1000.0` and truncates them to `int`, both of which are exact, and
  multiplies them by 1000, which is not: the product is rounded to the nearest
  `double` (`round_double`).
* The logging macros of GStreamer evaluate their arguments only when the
  level of the message passes the debug threshold.  The one log statement whose
  argument has a side effect (line 632) takes that decision from the
  environment record.
-/

namespace SpoutSrc

/-! ## Constants -/

/-- Largest `guint` (32-bit unsigned). -/
def G_MAXUINT : Nat := 2 ^ 32 - 1

/-- Largest `guint64`. -/
def G_MAXUINT64 : Nat := 2 ^ 64 - 1

/-- The invalid clock time, `(GstClockTime) -1`. -/
def GST_CLOCK_TIME_NONE : Nat := 2 ^ 64 - 1

/-- One second in nanoseconds. -/
def GST_SECOND : Nat := 1000000000

/-- The `GST_CLOCK_TIME_IS_VALID` test. -/
def GST_CLOCK_TIME_IS_VALID (t : Nat) : Bool := t != GST_CLOCK_TIME_NONE

/-- Line 85: `#define DEFAULT_FRAMERATE 30.0`. -/
def DEFAULT_FRAMERATE : ℚ := 30

/-- Line 81: `#define DEFAULT_WAIT_TIMEOUT 16`. -/
def DEFAULT_WAIT_TIMEOUT : Nat := 16

/-- Line 83: `#define DEFAULT_PROCESSING_DEADLINE (20 * GST_MSECOND)`. -/
def DEFAULT_PROCESSING_DEADLINE : Nat := 20 * 1000000

/-- The value of `DXGI_FORMAT_R8G8B8A8_UNORM` in `dxgiformat.h`. -/
def DXGI_FORMAT_R8G8B8A8_UNORM : Nat := 28

/-- The value of `DXGI_FORMAT_B8G8R8A8_UNORM` in `dxgiformat.h`. -/
def DXGI_FORMAT_B8G8R8A8_UNORM : Nat := 87

/-- The value of `DXGI_FORMAT_B8G8R8X8_UNORM` in `dxgiformat.h`. -/
def DXGI_FORMAT_B8G8R8X8_UNORM : Nat := 88

/-- The value of `DXGI_FORMAT_UNKNOWN` in `dxgiformat.h`. -/
def DXGI_FORMAT_UNKNOWN : Nat := 0

/-! ## Data model -/

/-- The part of `GstVideoFormat` the element uses. -/
inductive GstVideoFormat where
  | UNKNOWN
  | BGRA
  | RGBA
  | BGRx
  | RGBx
deriving DecidableEq, Repr

/-- The formats of the pad template, `GST_SPOUT_SRC_FORMATS` (gstspoutsrc.h line 39). -/
def GST_SPOUT_SRC_FORMATS : List GstVideoFormat :=
  [GstVideoFormat.BGRA, GstVideoFormat.RGBA, GstVideoFormat.RGBx, GstVideoFormat.BGRx]

/-- Flow results that reach the element (its own and those of the buffer pool). -/
inductive GstFlowReturn where
  | OK
  | NOT_LINKED
  | FLUSHING
  | EOS
  | NOT_NEGOTIATED
  | ERROR
  | NOT_SUPPORTED
deriving DecidableEq, Repr

/-- The fields of `GstVideoInfo` the element writes: the stream description. -/
structure GstVideoInfo where
  finfo : GstVideoFormat
  width : Nat
  height : Nat
  fps_n : Int
  fps_d : Int
deriving DecidableEq, Repr

/-- Caps built by `gst_video_info_to_caps` followed by `gst_caps_set_features`. -/
structure GstCaps where
  info : GstVideoInfo
  d3d11_memory : Bool
deriving DecidableEq, Repr

/-- An output buffer: mapped content and the metadata the element stamps. -/
structure GstBuffer where
  data : List Nat
  pts : Nat
  duration : Nat
  offset : Nat
deriving DecidableEq, Repr

/-- The private data of the element (lines 88 to 131); the mutex is not a field,
its acquisitions and releases are logged in the call trace. -/
structure GstSpoutSrcPrivate where
  device : Bool
  spout : Bool
  shared_texture : Bool
  texture_srv : Bool
  format : Nat
  video_info : GstVideoInfo
  caps : Option GstCaps
  pool : Bool
  flushing : Bool
  sender_name : String
  wait_timeout : Nat
  adapter : Int
  processing_deadline : Nat
  force_reconnect : Bool
  connected : Bool
  first_frame : Bool
  reconnect_attempts : Nat
  connected_sender_name : String
  prev_pts : Nat
  frame_number : Nat
  current_fps : ℚ
  last_receive_time : Nat
deriving DecidableEq

/-- Calls made to collaborators, and lock operations, in program order. -/
inductive Call where
  | lock
  | unlock
  | texture_srv_Release
  | shared_texture_Release
  | ReleaseReceiver
  | new_spoutDX
  | get_device_handle
  | OpenDirectX11
  | GetSenderCount
  | SetReceiverName (name : String)
  | GetSenderInfo (name : String)
  | ReceiveTexture
  | texture_Release
  | IsUpdated
  | set_caps (caps : GstCaps)
  | usleep (us : Nat)
  | acquire_buffer
  | buffer_map
  | buffer_unref
  | get_clock
  | ensure_device
  | CloseDirectX11
  | delete_spoutDX
  | pool_set_active (active : Bool)
  | pool_unref
  | post_latency_message
deriving DecidableEq, Repr

/-- Result of an operation: returned value, state afterwards, calls made. -/
structure Out (α : Type) where
  ret : α
  st : GstSpoutSrcPrivate
  calls : List Call

/-- What `GetSenderInfo` writes through its reference arguments on success. -/
structure SenderInfo where
  width : Nat
  height : Nat
  format : Nat
deriving DecidableEq, Repr

/-- Answers of the collaborators during one run of `gst_spout_src_connect`;
`log_warning` is whether a message of level WARNING passes the debug threshold
when line 631 runs (it does not at the default threshold). -/
structure SpoutEnv where
  new_ok : Bool
  device_handle : Bool
  open_ok : Bool
  sender_count : Int
  sender_info : Option SenderInfo
  receive_ok : Bool
  texture : Bool
  active_name : Option String
  active_width : Nat
  active_height : Nat
  active_format : Nat
  fps : ℚ
  now : Nat
  log_warning : Bool

/-! ## Format resolver and frame-rate policy -/

/-- Lines 375 to 392. -/
def gst_spout_src_dxgi_format_to_gst (dxgi_format : Nat) : GstVideoFormat :=
  if dxgi_format = DXGI_FORMAT_B8G8R8A8_UNORM then GstVideoFormat.BGRA
  else if dxgi_format = DXGI_FORMAT_R8G8B8A8_UNORM then GstVideoFormat.RGBA
  else if dxgi_format = DXGI_FORMAT_B8G8R8X8_UNORM then GstVideoFormat.BGRx
  else if dxgi_format = 122 then GstVideoFormat.RGBx
  else GstVideoFormat.UNKNOWN

/-- Lines 502 to 506 (again 579 to 583 and 1087 to 1091): the mapping followed by
the fallback to BGRA. -/
def resolve_video_format (dxgi_format : Nat) : GstVideoFormat :=
  let video_format := gst_spout_src_dxgi_format_to_gst dxgi_format
  if video_format = GstVideoFormat.UNKNOWN then GstVideoFormat.BGRA else video_format

/-- Lines 510 to 513 (again 587 to 590 and 1078 to 1081). -/
def sanitize_fps (fps : ℚ) : ℚ :=
  if fps ≤ 0 ∨ fps > 1000 then DEFAULT_FRAMERATE else fps

/-- The C conversion `(int) x` of a `double`: truncation toward zero. -/
def double_to_int (x : ℚ) : Int := Int.tdiv x.num x.den

/-- The integer nearest to a rational, a half going to the even neighbour. -/
def round_half_even (x : ℚ) : Int :=
  if x - ⌊x⌋ < 1 / 2 then ⌊x⌋
  else if 1 / 2 < x - ⌊x⌋ then ⌊x⌋ + 1
  else if ⌊x⌋ % 2 = 0 then ⌊x⌋ else ⌊x⌋ + 1

/-- The IEEE 754 binary64 number nearest to `x`, ties to even (the rounding of
every `double` operation): a multiple of `2 ^ (k - 52)` where `2 ^ k` is the
power of two at or below the magnitude of `x`, and of `2 ^ (-1074)` below the
smallest normal number.  Overflow to infinity is left out: the element only
rounds products of at most 1000 * 1000. -/
def round_double (x : ℚ) : ℚ :=
  if x = 0 then 0
  else
    let q : ℚ := 2 ^ (max (Int.log 2 |x|) (-1022) - 52)
    round_half_even (x / q) * q

/-- The C product `a * b` of two `double`s. -/
def double_mul (a b : ℚ) : ℚ := round_double (a * b)

/-- Lines 519 to 521 (again 596 to 598 and 1094 to 1096):
`fps_n = (int)(fps * 1000)`, the product taken in `double`. -/
def make_video_info (video_format : GstVideoFormat) (width height : Nat) (fps : ℚ) :
    GstVideoInfo :=
  { finfo := video_format, width := width, height := height,
    fps_n := double_to_int (double_mul fps 1000), fps_d := 1000 }

/-- Lines 524 to 529: caps of the video info, tagged as D3D11 memory. -/
def make_caps (info : GstVideoInfo) : GstCaps :=
  { info := info, d3d11_memory := true }

/-- The GStreamer utility `gst_util_uint64_scale_int (val, num, denom)`:
`val * num / denom` rounded down, `G_MAXUINT64` when the arguments are refused
(`num < 0` or `denom <= 0`) or on overflow. -/
def gst_util_uint64_scale_int (val : Nat) (num denom : Int) : Nat :=
  if num < 0 ∨ denom ≤ 0 then G_MAXUINT64
  else
    let r := val * num.toNat / denom.toNat
    if r > G_MAXUINT64 then G_MAXUINT64 else r

/-! ## Connection manager -/

/-- Lines 395 to 423. -/
def gst_spout_src_disconnect (s : GstSpoutSrcPrivate) : Out Unit :=
  let t1 := if s.texture_srv then [Call.texture_srv_Release] else []
  let t2 := if s.shared_texture then [Call.shared_texture_Release] else []
  let t3 := if s.spout then [Call.ReleaseReceiver] else []
  { ret := (),
    st := { s with texture_srv := false, shared_texture := false, connected := false,
                   first_frame := true, connected_sender_name := "" },
    calls := [Call.lock] ++ t1 ++ t2 ++ t3 ++ [Call.unlock] }

/-- Lines 497 to 547 (named branch) and 564 to 624 (active-sender branch): the
bookkeeping of a successful connection. -/
def connect_success (s : GstSpoutSrcPrivate) (e : SpoutEnv) (name : String)
    (width height format : Nat) : GstSpoutSrcPrivate :=
  let video_format := resolve_video_format format
  let fps := sanitize_fps e.fps
  let info := make_video_info video_format width height fps
  { s with format := format, connected_sender_name := name, current_fps := fps,
           video_info := info, caps := some (make_caps info), connected := true,
           reconnect_attempts := 0, last_receive_time := e.now }

/-- Lines 631 and 632: the value of `reconnect_attempts` after the log statement
`GST_WARNING_OBJECT (self, "... (%d attempts)", ++priv->reconnect_attempts)`.
The macro evaluates its arguments, and with them the increment of the `guint`,
only when the WARNING level passes the debug threshold (`logged`). -/
def attempts_after_warning (logged : Bool) (reconnect_attempts : Nat) : Nat :=
  if logged then (reconnect_attempts + 1) % 2 ^ 32 else reconnect_attempts

/-- Lines 630 to 639: the log statement that carries the increment, then the
test of the counter against the ceiling. -/
def connect_failed (s : GstSpoutSrcPrivate) (e : SpoutEnv) (calls : List Call) : Out Bool :=
  let n := attempts_after_warning e.log_warning s.reconnect_attempts
  { ret := decide (n < 5), st := { s with reconnect_attempts := n },
    calls := calls ++ [Call.unlock] }

/-- Lines 426 to 640.  `TRUE` is returned both on success and on a soft failure;
the caller tells them apart by `connected`.  The loop of lines 458 to 463 only
logs the sender names and is left out. -/
def gst_spout_src_connect (s : GstSpoutSrcPrivate) (e : SpoutEnv) : Out Bool :=
  let t0 := if s.spout then [Call.lock] else [Call.lock, Call.new_spoutDX]
  if s.spout = false ∧ e.new_ok = false then
    { ret := false, st := s, calls := t0 ++ [Call.unlock] }
  else
    let s1 := { s with spout := true }
    let t1 := t0 ++ [Call.get_device_handle]
    if (s1.device && e.device_handle) = false then
      { ret := false, st := s1, calls := t1 ++ [Call.unlock] }
    else
      let t2 := t1 ++ [Call.OpenDirectX11]
      if e.open_ok = false then
        { ret := false, st := s1, calls := t2 ++ [Call.unlock] }
      else
        let t3 := t2 ++ [Call.GetSenderCount]
        if e.sender_count = 0 then
          { ret := true, st := s1, calls := t3 ++ [Call.unlock] }
        else if s1.sender_name ≠ "" then
          let t4 := t3 ++ [Call.ReleaseReceiver, Call.SetReceiverName s1.sender_name,
                           Call.GetSenderInfo s1.sender_name]
          match e.sender_info with
          | some info =>
            let t5 := t4 ++ [Call.ReceiveTexture]
            if e.receive_ok then
              let t6 := if e.texture then t5 ++ [Call.texture_Release] else t5
              { ret := true,
                st := connect_success s1 e s1.sender_name info.width info.height info.format,
                calls := t6 ++ [Call.unlock] }
            else connect_failed s1 e t5
          | none => connect_failed s1 e t4
        else
          let t4 := t3 ++ [Call.ReleaseReceiver, Call.ReceiveTexture]
          if e.receive_ok then
            let t5 := if e.texture then t4 ++ [Call.texture_Release] else t4
            { ret := true,
              st := connect_success s1 e (e.active_name.getD "") e.active_width
                      e.active_height e.active_format,
              calls := t5 ++ [Call.unlock] }
          else connect_failed s1 e t4

/-- Consecutive runs of `gst_spout_src_connect`, each on the state the previous
one left. -/
def connect_run : GstSpoutSrcPrivate → List SpoutEnv → List (Out Bool)
  | _, [] => []
  | s, e :: es =>
    (gst_spout_src_connect s e) :: connect_run (gst_spout_src_connect s e).st es

/-! ## Flush control -/

/-- Lines 722 to 733. -/
def gst_spout_src_unlock (s : GstSpoutSrcPrivate) : Out Bool :=
  { ret := true, st := { s with flushing := true }, calls := [Call.lock, Call.unlock] }

/-- Lines 735 to 746. -/
def gst_spout_src_unlock_stop (s : GstSpoutSrcPrivate) : Out Bool :=
  { ret := true, st := { s with flushing := false }, calls := [Call.lock, Call.unlock] }

/-! ## Frame acquisition pipeline -/

/-- Answers of the collaborators during one run of
`gst_spout_src_copy_texture_to_buffer`. -/
structure CopyEnv where
  pre_connect : SpoutEnv
  is_d3d11_memory : Bool
  texture : Bool
  device_handle : Bool
  receive_ok : Bool
  reconnect : SpoutEnv
  now : Nat
  is_updated : Bool
  sender_width : Nat
  sender_height : Nat
  sender_format : Nat
  sender_name : Option String
  sender_fps : ℚ

/-- Lines 1059 to 1123: metadata-change detection after a successful pull. -/
def update_caps (s : GstSpoutSrcPrivate) (e : CopyEnv) (calls : List Call) :
    Out GstFlowReturn :=
  let name := match e.sender_name with
    | some n => n
    | none => s.connected_sender_name
  let fps := sanitize_fps e.sender_fps
  let info := make_video_info (resolve_video_format e.sender_format) e.sender_width
    e.sender_height fps
  let caps := make_caps info
  { ret := GstFlowReturn.OK,
    st := { s with connected_sender_name := name, current_fps := fps, video_info := info,
                   caps := some caps, first_frame := false, connected := true },
    calls := calls ++ [Call.lock, Call.unlock, Call.set_caps caps, Call.lock, Call.unlock] }

/-- Lines 966 to 1131. -/
def gst_spout_src_copy_texture_to_buffer (s : GstSpoutSrcPrivate) (e : CopyEnv) :
    Out GstFlowReturn :=
  let was_connected := s.connected && s.spout
  let t0 := [Call.lock, Call.unlock]
  let pre : Out Bool :=
    if was_connected then { ret := true, st := s, calls := t0 }
    else
      let c := gst_spout_src_connect s e.pre_connect
      { ret := c.ret, st := c.st, calls := t0 ++ c.calls }
  if pre.ret = false then { ret := GstFlowReturn.ERROR, st := pre.st, calls := pre.calls }
  else if e.is_d3d11_memory = false then
    { ret := GstFlowReturn.ERROR, st := pre.st, calls := pre.calls }
  else if e.texture = false then
    { ret := GstFlowReturn.ERROR, st := pre.st, calls := pre.calls }
  else
    let s1 := pre.st
    let t2 := pre.calls ++ [Call.get_device_handle]
    if (s1.device && e.device_handle) = false then
      { ret := GstFlowReturn.ERROR, st := s1, calls := t2 }
    else
      let t3 :=
        if s1.force_reconnect then
          if s1.sender_name ≠ "" then t2 ++ [Call.SetReceiverName s1.sender_name]
          else t2 ++ [Call.ReleaseReceiver]
        else t2
      let t4 := t3 ++ [Call.ReceiveTexture]
      if e.receive_ok = false then
        let d := gst_spout_src_disconnect { s1 with connected := false }
        let c := gst_spout_src_connect d.st e.reconnect
        { ret := GstFlowReturn.ERROR, st := c.st,
          calls := t4 ++ [Call.lock, Call.unlock] ++ d.calls ++ c.calls }
      else
        let s2 := { s1 with last_receive_time := e.now }
        let t5 := t4 ++ [Call.lock, Call.unlock, Call.IsUpdated]
        if e.is_updated || s2.first_frame then update_caps s2 e t5
        else { ret := GstFlowReturn.OK, st := s2, calls := t5 }

/-- Answers of the collaborators during one run of `gst_spout_src_create`.
Only one buffer is acquired and the clock is read once in any one cycle. -/
structure CreateEnv where
  connect : SpoutEnv
  acquire : GstFlowReturn
  buffer : GstBuffer
  map_ok : Bool
  clock : Option Nat
  base_time : Nat
  copy : CopyEnv

/-- Result of a create cycle: flow return, the buffer stored in `*buf` if
any, state afterwards, calls made. -/
structure CreateOut where
  ret : GstFlowReturn
  buf : Option GstBuffer
  st : GstSpoutSrcPrivate
  calls : List Call

/-- Lines 1229 to 1232 and 1294 to 1297. -/
def running_time (clock_time base_time : Nat) : Nat :=
  if clock_time > base_time then clock_time - base_time else 0

/-- Lines 1237 to 1243 and 1306 to 1307. -/
def frame_duration (current_fps : ℚ) : Nat :=
  let fps := if current_fps > 0 then current_fps else DEFAULT_FRAMERATE
  gst_util_uint64_scale_int 1 GST_SECOND (double_to_int fps)

/-- Lines 1197 to 1248: the cycle of a source that is still disconnected. -/
def create_placeholder (s : GstSpoutSrcPrivate) (e : CreateEnv) (calls : List Call) :
    CreateOut :=
  let t1 := calls ++ [Call.usleep (s.wait_timeout * 1000 % 2 ^ 32)]
  if s.pool = false then { ret := GstFlowReturn.OK, buf := none, st := s, calls := t1 }
  else
    let t2 := t1 ++ [Call.acquire_buffer]
    if e.acquire ≠ GstFlowReturn.OK then
      { ret := GstFlowReturn.OK, buf := none, st := s, calls := t2 }
    else
      let t3 := t2 ++ [Call.buffer_map]
      let b1 : GstBuffer :=
        if e.map_ok then { e.buffer with data := List.replicate e.buffer.data.length 0 }
        else e.buffer
      match e.clock with
      | some clock_time =>
        let timestamp := running_time clock_time e.base_time
        { ret := GstFlowReturn.OK,
          buf := some { b1 with pts := timestamp, duration := frame_duration s.current_fps },
          st := s, calls := t3 ++ [Call.get_clock, Call.lock, Call.unlock] }
      | none =>
        { ret := GstFlowReturn.OK, buf := some b1, st := s, calls := t3 ++ [Call.get_clock] }

/-- Lines 1251 to 1330: the cycle of a connected source.  Acquiring from a null
pool is refused by the pool API with `GST_FLOW_ERROR`. -/
def create_frame (s : GstSpoutSrcPrivate) (e : CreateEnv) (calls : List Call) : CreateOut :=
  let t1 := match s.caps with
    | some c => calls ++ [Call.lock, Call.unlock, Call.set_caps c]
    | none => calls ++ [Call.lock, Call.unlock]
  let t2 := t1 ++ [Call.acquire_buffer]
  let ret := if s.pool then e.acquire else GstFlowReturn.ERROR
  if ret ≠ GstFlowReturn.OK then { ret := ret, buf := none, st := s, calls := t2 }
  else
    let c := gst_spout_src_copy_texture_to_buffer s e.copy
    if c.ret ≠ GstFlowReturn.OK then
      { ret := GstFlowReturn.OK, buf := none, st := c.st,
        calls := t2 ++ c.calls ++ [Call.buffer_unref] }
    else
      let t3 := t2 ++ c.calls ++ [Call.get_clock]
      match e.clock with
      | some clock_time =>
        let timestamp := running_time clock_time e.base_time
        let fallback := frame_duration c.st.current_fps
        let duration :=
          if GST_CLOCK_TIME_IS_VALID c.st.prev_pts then
            if timestamp > c.st.prev_pts then timestamp - c.st.prev_pts else fallback
          else fallback
        { ret := GstFlowReturn.OK,
          buf := some { e.buffer with pts := timestamp, duration := duration,
                                      offset := c.st.frame_number },
          st := { c.st with prev_pts := timestamp,
                            frame_number := (c.st.frame_number + 1) % 2 ^ 64 },
          calls := t3 ++ [Call.lock, Call.unlock] }
      | none => { ret := GstFlowReturn.OK, buf := some e.buffer, st := c.st, calls := t3 }

/-- Lines 1133 to 1331. -/
def gst_spout_src_create (s : GstSpoutSrcPrivate) (e : CreateEnv) : CreateOut :=
  if s.flushing then
    { ret := GstFlowReturn.FLUSHING, buf := none, st := s, calls := [Call.lock, Call.unlock] }
  else
    let connected := s.connected && s.spout
    let t0 := [Call.lock, Call.unlock, Call.lock, Call.unlock]
    let t1 := match connected, s.caps with
      | true, some c => t0 ++ [Call.set_caps c]
      | _, _ => t0
    if connected = false then
      let r := gst_spout_src_connect s e.connect
      let t2 := t1 ++ r.calls ++ [Call.lock, Call.unlock]
      if r.ret = false ∧ r.st.reconnect_attempts ≥ 5 then
        { ret := GstFlowReturn.ERROR, buf := none, st := r.st, calls := t2 }
      else if (r.st.connected && r.st.spout) = false then create_placeholder r.st e t2
      else create_frame r.st e t2
    else create_frame s e t1

/-- Consecutive create cycles, each on the state the previous one left. -/
def create_run : GstSpoutSrcPrivate → List CreateEnv → List CreateOut
  | _, [] => []
  | s, e :: es => (gst_spout_src_create s e) :: create_run (gst_spout_src_create s e).st es

/-! ## Start, stop and caps query -/

/-- Answers of the collaborators during one run of `gst_spout_src_start`. -/
structure StartEnv where
  ensure_device : Bool
  connect : SpoutEnv

/-- Lines 642 to 671.  `gst_d3d11_ensure_element_data` succeeds when a device is
already held or one can be obtained.  The result of connect is only logged. -/
def gst_spout_src_start (s : GstSpoutSrcPrivate) (e : StartEnv) : Out Bool :=
  if (s.device || e.ensure_device) = false then
    { ret := false, st := s, calls := [Call.ensure_device] }
  else
    let c := gst_spout_src_connect { s with device := true } e.connect
    { ret := true,
      st := { c.st with frame_number := 0, prev_pts := GST_CLOCK_TIME_NONE, first_frame := true,
                        reconnect_attempts := 0, last_receive_time := GST_CLOCK_TIME_NONE },
      calls := [Call.ensure_device] ++ c.calls }

/-- Lines 673 to 720.  No lock is taken; `frame_number` and `prev_pts` are not
written. -/
def gst_spout_src_stop (s : GstSpoutSrcPrivate) : Out Bool :=
  let t1 := if s.texture_srv then [Call.texture_srv_Release] else []
  let t2 := if s.shared_texture then [Call.shared_texture_Release] else []
  let t3 := if s.spout then [Call.ReleaseReceiver, Call.CloseDirectX11, Call.delete_spoutDX]
    else []
  let t4 := if s.pool then [Call.pool_set_active false, Call.pool_unref] else []
  { ret := true,
    st := { s with texture_srv := false, shared_texture := false, spout := false,
                   device := false, pool := false, caps := none, connected := false,
                   first_frame := true, reconnect_attempts := 0,
                   connected_sender_name := "" },
    calls := t1 ++ t2 ++ t3 ++ t4 }

/-- A capability set as the negotiation layer sees it: the pad-template caps,
caps fixed by a stream description, or the intersection a filter asks for. -/
inductive CapsSet where
  | template
  | fixed (caps : GstCaps)
  | intersect_full (filter : CapsSet) (caps : CapsSet)
deriving DecidableEq, Repr

/-- Lines 786 to 817. -/
def gst_spout_src_get_caps (s : GstSpoutSrcPrivate) (filter : Option CapsSet) : Out CapsSet :=
  let caps := match s.caps with
    | some c => CapsSet.fixed c
    | none => CapsSet.template
  { ret := match filter with
      | some f => CapsSet.intersect_full f caps
      | none => caps,
    st := s, calls := [Call.lock, Call.unlock] }

/-- The private data as `new GstSpoutSrcPrivate ()` leaves it: the member
initialisers of lines 88 to 131, and zero for `video_info`, which has none. -/
def GstSpoutSrcPrivate.init : GstSpoutSrcPrivate :=
  { device := false, spout := false, shared_texture := false, texture_srv := false,
    format := DXGI_FORMAT_UNKNOWN,
    video_info := { finfo := GstVideoFormat.UNKNOWN, width := 0, height := 0,
                    fps_n := 0, fps_d := 0 },
    caps := none, pool := false, flushing := false, sender_name := "",
    wait_timeout := DEFAULT_WAIT_TIMEOUT, adapter := -1,
    processing_deadline := DEFAULT_PROCESSING_DEADLINE, force_reconnect := false,
    connected := false, first_frame := true, reconnect_attempts := 0,
    connected_sender_name := "", prev_pts := GST_CLOCK_TIME_NONE, frame_number := 0,
    current_fps := DEFAULT_FRAMERATE, last_receive_time := GST_CLOCK_TIME_NONE }

/-! ## Properties -/

/-- A property write as `gst_spout_src_set_property` receives it: the property
and its new value (the value ranges are those of the param specs of lines 182 to
212; a string may be NULL), or an identifier the element does not know. -/
inductive PropertyWrite where
  | sender_name (value : Option String)
  | wait_timeout (value : Nat)
  | adapter (value : Int)
  | processing_deadline (value : Nat)
  | force_reconnect (value : Bool)
  | invalid (prop_id : Nat)
deriving DecidableEq, Repr

/-- Lines 273 to 323.  A changed processing deadline posts a latency message
after the lock is released. -/
def gst_spout_src_set_property (s : GstSpoutSrcPrivate) (w : PropertyWrite) : Out Unit :=
  match w with
  | PropertyWrite.sender_name value =>
    { ret := (), st := { s with sender_name := value.getD "" },
      calls := [Call.lock, Call.unlock] }
  | PropertyWrite.wait_timeout value =>
    { ret := (), st := { s with wait_timeout := value }, calls := [Call.lock, Call.unlock] }
  | PropertyWrite.adapter value =>
    { ret := (), st := { s with adapter := value }, calls := [Call.lock, Call.unlock] }
  | PropertyWrite.processing_deadline value =>
    { ret := (), st := { s with processing_deadline := value },
      calls := if s.processing_deadline ≠ value then
          [Call.lock, Call.unlock, Call.post_latency_message]
        else [Call.lock, Call.unlock] }
  | PropertyWrite.force_reconnect value =>
    { ret := (), st := { s with force_reconnect := value }, calls := [Call.lock, Call.unlock] }
  | PropertyWrite.invalid _ =>
    { ret := (), st := s, calls := [Call.lock, Call.unlock] }

/-! ## Predicates used in the statements -/

/-- The transport client exists or can be created, and binds to the device
(lines 432 to 452 all pass). -/
def binds (s : GstSpoutSrcPrivate) (e : SpoutEnv) : Prop :=
  (s.spout = true ∨ e.new_ok = true) ∧ s.device = true ∧ e.device_handle = true ∧
    e.open_ok = true

/-- At least one producer is enumerated and the bind/pull fails: in the named
branch `GetSenderInfo` or `ReceiveTexture` fails, in the active-sender branch
`ReceiveTexture` fails. -/
def pull_fails (s : GstSpoutSrcPrivate) (e : SpoutEnv) : Prop :=
  binds s e ∧ e.sender_count ≠ 0 ∧
    ((s.sender_name ≠ "" ∧ (e.sender_info = none ∨ e.receive_ok = false)) ∨
     (s.sender_name = "" ∧ e.receive_ok = false))

/-- The transport binds to the device and enumerates no producer. -/
def no_producer (s : GstSpoutSrcPrivate) (e : SpoutEnv) : Prop :=
  binds s e ∧ e.sender_count = 0

/-- Every attempt of a run of connects fails at the bind/pull. -/
def run_fails : GstSpoutSrcPrivate → List SpoutEnv → Prop
  | _, [] => True
  | s, e :: es => pull_fails s e ∧ run_fails (gst_spout_src_connect s e).st es

/-- Every cycle of a run of create cycles has a connect attempt that finds no
producer. -/
def cycles_no_producer : GstSpoutSrcPrivate → List CreateEnv → Prop
  | _, [] => True
  | s, e :: es =>
    no_producer s e.connect ∧ cycles_no_producer (gst_spout_src_create s e).st es

/-- A producer is enumerated and the validating pull succeeds: in the named
branch `GetSenderInfo` and `ReceiveTexture` succeed, in the active-sender branch
`ReceiveTexture` succeeds. -/
def pull_succeeds (s : GstSpoutSrcPrivate) (e : SpoutEnv) : Prop :=
  binds s e ∧ e.sender_count ≠ 0 ∧ e.receive_ok = true ∧
    (s.sender_name ≠ "" → e.sender_info ≠ none)

/-- The state is already disconnected: not connected, waiting for a first
frame, no sender recorded, no texture view and no shared texture held. -/
def already_disconnected (s : GstSpoutSrcPrivate) : Prop :=
  s.connected = false ∧ s.first_frame = true ∧ s.connected_sender_name = "" ∧
    s.texture_srv = false ∧ s.shared_texture = false

/-- The cycle is not flushing, starts disconnected, and its connect attempt
neither connects nor is fatal (line 1192 does not fire, line 1198 does). -/
def stays_disconnected (s : GstSpoutSrcPrivate) (e : CreateEnv) : Prop :=
  s.flushing = false ∧ (s.connected && s.spout) = false ∧
    ((gst_spout_src_connect s e.connect).st.connected &&
      (gst_spout_src_connect s e.connect).st.spout) = false ∧
    ¬ ((gst_spout_src_connect s e.connect).ret = false ∧
      (gst_spout_src_connect s e.connect).st.reconnect_attempts ≥ 5)

/-- Every cycle of a run of create cycles stays disconnected. -/
def run_stays_disconnected : GstSpoutSrcPrivate → List CreateEnv → Prop
  | _, [] => True
  | s, e :: es =>
    stays_disconnected s e ∧ run_stays_disconnected (gst_spout_src_create s e).st es

/-- The pool hands out a buffer that maps for writing, and the element has a
clock and the given base time. -/
def placeholder_ready (base : Nat) (e : CreateEnv) : Prop :=
  e.acquire = GstFlowReturn.OK ∧ e.map_ok = true ∧ e.base_time = base ∧ e.clock ≠ none

/-- The clock readings of a run of cycles. -/
def clock_readings (es : List CreateEnv) : List Nat :=
  es.map (fun e => e.clock.getD 0)

/-- The timestamps of the buffers handed out by a run of cycles. -/
def stamps (os : List CreateOut) : List Nat :=
  os.filterMap (fun o => o.buf.map GstBuffer.pts)

/-- Unsigned 64-bit subtraction as the machine performs it, for operands below
2^64. -/
def guint64_sub (a b : Nat) : Nat := (a + 2 ^ 64 - b) % 2 ^ 64

/-- The invariant of the connection state: a recorded sender name is non-empty
only when the state is connected. -/
def name_implies_connected (s : GstSpoutSrcPrivate) : Prop :=
  s.connected_sender_name ≠ "" → s.connected = true

/-- The connect attempt was fatal for the cycle: connect returned FALSE and the
counter stands at 5 or more (the test of line 1192). -/
def fatal_connect (r : Out Bool) : Prop :=
  r.ret = false ∧ r.st.reconnect_attempts ≥ 5

/-- A connected, non-flushing cycle whose buffer is acquired, whose buffer and
device checks pass, and whose pull fails. -/
def pull_lost (s : GstSpoutSrcPrivate) (e : CreateEnv) : Prop :=
  s.flushing = false ∧ s.connected = true ∧ s.spout = true ∧ s.pool = true ∧
    e.acquire = GstFlowReturn.OK ∧ e.copy.is_d3d11_memory = true ∧ e.copy.texture = true ∧
    s.device = true ∧ e.copy.device_handle = true ∧ e.copy.receive_ok = false

/-- The call hands caps to the negotiation layer (`gst_base_src_set_caps`). -/
def Call.is_set_caps : Call → Bool
  | Call.set_caps _ => true
  | _ => false

/-- Number of caps publications in a trace. -/
def publications (calls : List Call) : Nat :=
  (calls.filter Call.is_set_caps).length

/-- Replay of a trace against the mutex, from the state `held`: the state
afterwards, or `none` when the trace takes the lock while it is held, releases
it while it is not, or hands caps to the negotiation layer while it is held. -/
def lock_check : Bool → List Call → Option Bool
  | held, [] => some held
  | held, Call.lock :: cs => if held then none else lock_check true cs
  | held, Call.unlock :: cs => if held then lock_check false cs else none
  | held, Call.set_caps _ :: cs => if held then none else lock_check held cs
  | held, _ :: cs => lock_check held cs

/-- The trace starts and ends with the lock released and never calls into the
negotiation layer with the lock held. -/
def lock_discipline (calls : List Call) : Prop :=
  lock_check false calls = some false

/-- The arguments of the sleeps in a trace, in microseconds. -/
def sleeps (calls : List Call) : List Nat :=
  calls.filterMap (fun c => match c with
    | Call.usleep us => some us
    | _ => none)

/-- A transport that binds, lists one producer and fails every pull, at the
default debug threshold (no message is logged). -/
def failing_env : SpoutEnv :=
  { new_ok := true, device_handle := true, open_ok := true, sender_count := 1,
    sender_info := none, receive_ok := false, texture := false, active_name := none,
    active_width := 0, active_height := 0, active_format := 0, fps := 0, now := 0,
    log_warning := false }

/-- The failing transport while warnings are logged (`GST_DEBUG=2` or above). -/
def logged_env : SpoutEnv :=
  { failing_env with log_warning := true }

/-- A transport that binds and lists no producer. -/
def empty_env : SpoutEnv :=
  { failing_env with sender_count := 0 }

/-- An element that holds its D3D11 device and is otherwise in the initial state. -/
def started : GstSpoutSrcPrivate :=
  { GstSpoutSrcPrivate.init with device := true }

/-- A pull that delivers nothing and reports no metadata change. -/
def quiet_copy : CopyEnv :=
  { pre_connect := empty_env, is_d3d11_memory := true, texture := true, device_handle := true,
    receive_ok := true, reconnect := empty_env, now := 0, is_updated := false,
    sender_width := 0, sender_height := 0, sender_format := 0, sender_name := none,
    sender_fps := 0 }

/-- A four-byte buffer as the pool hands it out: arbitrary content, no timing. -/
def pool_buffer : GstBuffer :=
  { data := [17, 34, 51, 68], pts := GST_CLOCK_TIME_NONE, duration := GST_CLOCK_TIME_NONE,
    offset := 0 }

/-- A cycle in which the transport lists no producer. -/
def idle_cycle : CreateEnv :=
  { connect := empty_env, acquire := GstFlowReturn.OK, buffer := pool_buffer, map_ok := true,
    clock := some 0, base_time := 0, copy := quiet_copy }

/-- A cycle in which the transport lists a producer and the pull fails. -/
def failing_cycle : CreateEnv :=
  { idle_cycle with connect := failing_env }

/-- A cycle in which the pull fails while warnings are logged. -/
def logged_cycle : CreateEnv :=
  { idle_cycle with connect := logged_env }

/-- A transport that binds, lists one producer and delivers its frame; the
producer reports 29.97 frames per second and an unrecognised pixel format. -/
def live_env : SpoutEnv :=
  { failing_env with receive_ok := true, texture := true, active_name := some "cam",
                     active_width := 640, active_height := 480, active_format := 2,
                     fps := 2997 / 100, now := 7 }

/-- A disconnected element that still holds a transport client instance. -/
def bound : GstSpoutSrcPrivate :=
  { started with spout := true }

/-- A connected element in mid-stream: the producer "cam" runs at 29.97 frames
per second and the previous frame was stamped at 100 ns. -/
def streaming : GstSpoutSrcPrivate :=
  { started with spout := true, pool := true, connected := true, first_frame := false,
                 connected_sender_name := "cam", current_fps := 2997 / 100, prev_pts := 100,
                 frame_number := 3 }

/-- A cycle whose clock reading (50 ns after base time) is not later than the
previous frame, with a successful pull and no metadata change. -/
def late_cycle : CreateEnv :=
  { idle_cycle with clock := some 50 }

/-- An idle cycle read 50 ns on the clock while the base time is 100 ns. -/
def skewed_cycle : CreateEnv :=
  { idle_cycle with clock := some 50, base_time := 100 }

/-- A cycle read 250 ns on the clock while the base time is 100 ns, with a
successful pull and no metadata change. -/
def running_cycle : CreateEnv :=
  { idle_cycle with clock := some 250, base_time := 100 }

/-- A disconnected element with a pool whose last producer ran at 29.97 frames
per second. -/
def waiting : GstSpoutSrcPrivate :=
  { started with spout := true, pool := true, current_fps := 2997 / 100 }

/-- An idle cycle whose buffer cannot be mapped for writing. -/
def unmapped_cycle : CreateEnv :=
  { idle_cycle with map_ok := false }

/-- A started, disconnected element with a buffer pool, at the default rate. -/
def pooled : GstSpoutSrcPrivate :=
  { started with pool := true }

/-- An idle cycle 40 ns after base time. -/
def later_cycle : CreateEnv :=
  { idle_cycle with clock := some 40 }

/-- A cycle whose pull fails and whose immediate reconnect finds no producer. -/
def lost_cycle : CreateEnv :=
  { late_cycle with copy := { quiet_copy with receive_ok := false } }

/-- A transport whose device does not bind. -/
def unbound_env : SpoutEnv :=
  { failing_env with open_ok := false }

/-- A cycle in which the transport client cannot bind to the device. -/
def unbound_cycle : CreateEnv :=
  { idle_cycle with connect := unbound_env }

/-- A disconnected element whose failure counter already stands at 4. -/
def strained : GstSpoutSrcPrivate :=
  { started with reconnect_attempts := 4 }

/-- A cycle read 250 ns after base time, with a successful pull and no
metadata change. -/
def on_time_cycle : CreateEnv :=
  { idle_cycle with clock := some 250 }

/-- Answers to start: the device is obtained and the active sender connects. -/
def live_start : StartEnv :=
  { ensure_device := true, connect := live_env }

/-- The element with a pool right after it connected to the active sender "cam". -/
def connected_live : GstSpoutSrcPrivate :=
  (gst_spout_src_connect pooled live_env).st

/-- The element connected to "cam" after its first frame. -/
def streaming_live : GstSpoutSrcPrivate :=
  { connected_live with first_frame := false }

/-- A cycle with a successful pull during which the transport signals a
metadata update. -/
def updated_cycle : CreateEnv :=
  { late_cycle with copy := { quiet_copy with is_updated := true } }

/-- Caps of a 640 by 480 BGRA stream at 30 frames per second. -/
def vga_caps : GstCaps :=
  { info := { finfo := GstVideoFormat.BGRA, width := 640, height := 480, fps_n := 30000,
              fps_d := 1000 },
    d3d11_memory := true }

/-- A connected element that holds caps but has no buffer pool yet. -/
def announced : GstSpoutSrcPrivate :=
  { bound with connected := true, first_frame := false, caps := some vga_caps }

/-- A transport whose producer "cam" reports 1/2048 frames per second. -/
def tiny_env : SpoutEnv :=
  { live_env with fps := 1 / 2048 }

/-- A transport whose producer "cam" reports half a frame per second. -/
def slow_env : SpoutEnv :=
  { live_env with fps := 1 / 2 }

/-- A disconnected element with a pool whose last producer ran at half a frame
per second. -/
def slow : GstSpoutSrcPrivate :=
  { started with spout := true, pool := true, current_fps := 1 / 2 }

/-- A connected element in mid-stream whose producer runs at half a frame per
second. -/
def slow_stream : GstSpoutSrcPrivate :=
  { streaming with current_fps := 1 / 2 }

/-- A disconnected element with a pool whose `wait-timeout` property was set to
4294968 ms. -/
def patient : GstSpoutSrcPrivate :=
  (gst_spout_src_set_property pooled (PropertyWrite.wait_timeout 4294968)).st

/-! ## Lemmas on connect -/

/-- A failed bind/pull returns through lines 630 to 639: the counter is the one
the log statement leaves and is compared with 5; only `spout` and the counter
change. -/
theorem connect_pull_fails_eq (s : GstSpoutSrcPrivate) (e : SpoutEnv) (h : pull_fails s e) :
    (gst_spout_src_connect s e).ret =
      decide (attempts_after_warning e.log_warning s.reconnect_attempts < 5) ∧
    (gst_spout_src_connect s e).st =
      { s with spout := true,
               reconnect_attempts :=
                 attempts_after_warning e.log_warning s.reconnect_attempts } := by
  obtain ⟨⟨hsp, hdev, hh, hopen⟩, hcount, hbr⟩ := h
  have hnew : ¬ (s.spout = false ∧ e.new_ok = false) := by
    rintro ⟨h1, h2⟩
    rcases hsp with h3 | h3
    · rw [h1] at h3; exact Bool.noConfusion h3
    · rw [h2] at h3; exact Bool.noConfusion h3
  rcases hbr with ⟨hname, hfail⟩ | ⟨hname, hfail⟩
  · rcases hfail with hinfo | hrecv
    · simp [gst_spout_src_connect, connect_failed, hnew, hdev, hh, hopen, hcount, hname, hinfo]
    · cases hinfo : e.sender_info <;>
        simp [gst_spout_src_connect, connect_failed, hnew, hdev, hh, hopen, hcount, hname,
          hinfo, hrecv]
  · simp [gst_spout_src_connect, connect_failed, hnew, hdev, hh, hopen, hcount, hname, hfail]

/-- With no producer enumerated connect returns TRUE at line 467 having at most
created the transport client. -/
theorem connect_no_producer_eq (s : GstSpoutSrcPrivate) (e : SpoutEnv) (h : no_producer s e) :
    (gst_spout_src_connect s e).ret = true ∧
    (gst_spout_src_connect s e).st = { s with spout := true } := by
  obtain ⟨⟨hsp, hdev, hh, hopen⟩, hcount⟩ := h
  have hnew : ¬ (s.spout = false ∧ e.new_ok = false) := by
    rintro ⟨h1, h2⟩
    rcases hsp with h3 | h3
    · rw [h1] at h3; exact Bool.noConfusion h3
    · rw [h2] at h3; exact Bool.noConfusion h3
  simp [gst_spout_src_connect, hnew, hdev, hh, hopen, hcount]

/-- A successful pull ends in the bookkeeping of `connect_success`, with the
configured name in the named branch and the reported name otherwise. -/
theorem connect_pull_succeeds_eq (s : GstSpoutSrcPrivate) (e : SpoutEnv)
    (h : pull_succeeds s e) :
    (gst_spout_src_connect s e).ret = true ∧
    ((s.sender_name ≠ "" ∧ ∃ info, e.sender_info = some info ∧
        (gst_spout_src_connect s e).st =
          connect_success { s with spout := true } e s.sender_name info.width info.height
            info.format) ∨
     (s.sender_name = "" ∧
        (gst_spout_src_connect s e).st =
          connect_success { s with spout := true } e (e.active_name.getD "") e.active_width
            e.active_height e.active_format)) := by
  obtain ⟨⟨hsp, hdev, hh, hopen⟩, hcount, hrecv, hinfo⟩ := h
  have hnew : ¬ (s.spout = false ∧ e.new_ok = false) := by
    rintro ⟨h1, h2⟩
    rcases hsp with h3 | h3
    · rw [h1] at h3; exact Bool.noConfusion h3
    · rw [h2] at h3; exact Bool.noConfusion h3
  by_cases hname : s.sender_name = ""
  · simp [gst_spout_src_connect, hnew, hdev, hh, hopen, hcount, hname, hrecv]
  · cases hi : e.sender_info with
    | none => exact absurd hi (hinfo hname)
    | some info =>
      simp [gst_spout_src_connect, hnew, hdev, hh, hopen, hcount, hname, hrecv, hi]

/-- The four ways connect can end: the client could not be created; it was
created but the device did not bind or no producer was listed; the bind/pull
failed; the connection succeeded. -/
theorem connect_cases (s : GstSpoutSrcPrivate) (e : SpoutEnv) :
    ((gst_spout_src_connect s e).st = s ∧ (gst_spout_src_connect s e).ret = false) ∨
    ((gst_spout_src_connect s e).st = { s with spout := true }) ∨
    ((gst_spout_src_connect s e).st =
        { s with spout := true,
                 reconnect_attempts :=
                   attempts_after_warning e.log_warning s.reconnect_attempts } ∧
      (gst_spout_src_connect s e).ret =
        decide (attempts_after_warning e.log_warning s.reconnect_attempts < 5)) ∨
    ((∃ name w h f, (gst_spout_src_connect s e).st =
        connect_success { s with spout := true } e name w h f) ∧
      (gst_spout_src_connect s e).ret = true) := by
  by_cases h1 : s.spout = false ∧ e.new_ok = false
  · left; simp [gst_spout_src_connect, h1]
  by_cases h2 : (s.device && e.device_handle) = false
  · right; left; simp [gst_spout_src_connect, h1, h2]
  by_cases h3 : e.open_ok = false
  · right; left; simp [gst_spout_src_connect, h1, h2, h3]
  by_cases h4 : e.sender_count = 0
  · right; left; simp [gst_spout_src_connect, h1, h2, h3, h4]
  by_cases h5 : s.sender_name = ""
  · cases h6 : e.receive_ok
    · right; right; left
      simp [gst_spout_src_connect, connect_failed, h1, h2, h3, h4, h5, h6]
    · right; right; right
      refine ⟨⟨e.active_name.getD "", e.active_width, e.active_height, e.active_format, ?_⟩, ?_⟩
      · simp [gst_spout_src_connect, h1, h2, h3, h4, h5, h6]
      · simp [gst_spout_src_connect, h1, h2, h3, h4, h5, h6]
  · cases h7 : e.sender_info with
    | none =>
      right; right; left
      simp [gst_spout_src_connect, connect_failed, h1, h2, h3, h4, h5, h7]
    | some info =>
      cases h6 : e.receive_ok
      · right; right; left
        simp [gst_spout_src_connect, connect_failed, h1, h2, h3, h4, h5, h6, h7]
      · right; right; right
        refine ⟨⟨s.sender_name, info.width, info.height, info.format, ?_⟩, ?_⟩
        · simp [gst_spout_src_connect, h1, h2, h3, h4, h5, h6, h7]
        · simp [gst_spout_src_connect, h1, h2, h3, h4, h5, h6, h7]

/-- No path of connect writes the frame counter or the previous timestamp. -/
theorem connect_preserves_timing (s : GstSpoutSrcPrivate) (e : SpoutEnv) :
    (gst_spout_src_connect s e).st.frame_number = s.frame_number ∧
    (gst_spout_src_connect s e).st.prev_pts = s.prev_pts := by
  rcases connect_cases s e with ⟨h, _⟩ | h | ⟨h, _⟩ | ⟨⟨n, w, ht, f, h⟩, _⟩ <;> rw [h] <;>
    exact ⟨rfl, rfl⟩

/-- Connect keeps the invariant on the sender name. -/
theorem connect_keeps_name_invariant (s : GstSpoutSrcPrivate) (e : SpoutEnv)
    (h : name_implies_connected s) : name_implies_connected (gst_spout_src_connect s e).st := by
  rcases connect_cases s e with ⟨hs, _⟩ | hs | ⟨hs, _⟩ | ⟨⟨n, w, ht, f, hs⟩, _⟩ <;> rw [hs]
  · exact h
  · exact h
  · exact h
  · intro _; rfl

/-- A connect that returns FALSE leaves the connection flag as it was. -/
theorem connect_false_connected (s : GstSpoutSrcPrivate) (e : SpoutEnv)
    (h : (gst_spout_src_connect s e).ret = false) :
    (gst_spout_src_connect s e).st.connected = s.connected := by
  rcases connect_cases s e with ⟨hs, _⟩ | hs | ⟨hs, _⟩ | ⟨_, hr⟩
  · rw [hs]
  · rw [hs]
  · rw [hs]
  · rw [hr] at h; exact Bool.noConfusion h

/-! ## Lemmas on the create cycle -/

/-- The placeholder path always returns OK and never changes the state. -/
theorem create_placeholder_ret_st (s : GstSpoutSrcPrivate) (e : CreateEnv) (t : List Call) :
    (create_placeholder s e t).ret = GstFlowReturn.OK ∧ (create_placeholder s e t).st = s := by
  unfold create_placeholder
  by_cases hp : s.pool = false
  · simp [hp]
  · by_cases ha : e.acquire = GstFlowReturn.OK
    · cases hc : e.clock <;> simp [hp, ha]
    · simp [hp, ha]

/-- A disconnected cycle whose connect fails at the bind/pull: the state is the one
connect leaves, the result is OK while the counter the log statement leaves is
below the ceiling and ERROR from it on. -/
theorem create_pull_fails_eq (s : GstSpoutSrcPrivate) (e : CreateEnv)
    (hflush : s.flushing = false) (hconn : s.connected = false)
    (h : pull_fails s e.connect) :
    (gst_spout_src_create s e).st = (gst_spout_src_connect s e.connect).st ∧
    (gst_spout_src_create s e).ret =
      if attempts_after_warning e.connect.log_warning s.reconnect_attempts < 5
      then GstFlowReturn.OK
      else GstFlowReturn.ERROR := by
  obtain ⟨hret, hst⟩ := connect_pull_fails_eq s e.connect h
  have hc : (gst_spout_src_connect s e.connect).st.connected = false := by rw [hst]; exact hconn
  have hra : (gst_spout_src_connect s e.connect).st.reconnect_attempts =
      attempts_after_warning e.connect.log_warning s.reconnect_attempts := by rw [hst]
  unfold gst_spout_src_create
  by_cases hlt : attempts_after_warning e.connect.log_warning s.reconnect_attempts < 5
  · have hnf : ¬ ((gst_spout_src_connect s e.connect).ret = false ∧
        (gst_spout_src_connect s e.connect).st.reconnect_attempts ≥ 5) := by
      rw [hra]; intro hh; omega
    simp only [hflush, hconn, Bool.false_and, hnf, hc, if_true, if_false, hlt]
    simp only [Bool.false_eq_true, if_false]
    exact ⟨(create_placeholder_ret_st _ _ _).2, (create_placeholder_ret_st _ _ _).1⟩
  · have hf : (gst_spout_src_connect s e.connect).ret = false ∧
        (gst_spout_src_connect s e.connect).st.reconnect_attempts ≥ 5 := by
      rw [hra, hret]
      exact ⟨decide_eq_false hlt, Nat.not_lt.mp hlt⟩
    simp only [hflush, hconn, Bool.false_and, hf, hlt]
    simp

/-- A disconnected cycle that finds no producer returns OK and only records the
transport client. -/
theorem create_no_producer_eq (s : GstSpoutSrcPrivate) (e : CreateEnv)
    (hflush : s.flushing = false) (hconn : s.connected = false)
    (h : no_producer s e.connect) :
    (gst_spout_src_create s e).st = { s with spout := true } ∧
    (gst_spout_src_create s e).ret = GstFlowReturn.OK := by
  obtain ⟨hret, hst⟩ := connect_no_producer_eq s e.connect h
  have hc : (gst_spout_src_connect s e.connect).st.connected = false := by rw [hst]; exact hconn
  have key : (gst_spout_src_create s e).st = (gst_spout_src_connect s e.connect).st ∧
      (gst_spout_src_create s e).ret = GstFlowReturn.OK := by
    unfold gst_spout_src_create
    simp only [hflush, hconn, Bool.false_and, hret, hc]
    simp only [Bool.false_eq_true, if_false, if_true, false_and, Bool.true_eq_false]
    exact ⟨(create_placeholder_ret_st _ _ _).2, (create_placeholder_ret_st _ _ _).1⟩
  exact ⟨key.1.trans hst, key.2⟩

/-- A run of connects makes one attempt per environment. -/
theorem connect_run_length (es : List SpoutEnv) : ∀ s : GstSpoutSrcPrivate,
    (connect_run s es).length = es.length := by
  induction es with
  | nil => intro s; rfl
  | cons e es ih => intro s; simp [connect_run, ih]

/-- A run of create cycles has one result per cycle. -/
theorem create_run_length (es : List CreateEnv) : ∀ s : GstSpoutSrcPrivate,
    (create_run s es).length = es.length := by
  induction es with
  | nil => intro s; rfl
  | cons e es ih => intro s; simp [create_run, ih]

/-- A run of cycles that find no producer: every cycle returns OK, the counter
never moves, every connect returns TRUE. -/
theorem create_run_idle (es : List CreateEnv) : ∀ s : GstSpoutSrcPrivate,
    s.flushing = false → s.connected = false → cycles_no_producer s es →
    (∀ o ∈ create_run s es, o.ret = GstFlowReturn.OK ∧
      o.st.reconnect_attempts = s.reconnect_attempts) ∧
    (∀ o ∈ connect_run s (es.map CreateEnv.connect), o.ret = true) := by
  induction es with
  | nil =>
    intro s _ _ _
    exact ⟨fun o ho => absurd ho (List.not_mem_nil o), fun o ho => absurd ho (List.not_mem_nil o)⟩
  | cons e es ih =>
    intro s hflush hconn hrun
    obtain ⟨hnp, hrest⟩ := hrun
    obtain ⟨hcst, hcret⟩ := create_no_producer_eq s e hflush hconn hnp
    obtain ⟨hret, hst⟩ := connect_no_producer_eq s e.connect hnp
    have hra : (gst_spout_src_create s e).st.reconnect_attempts = s.reconnect_attempts := by
      rw [hcst]
    have hfl : (gst_spout_src_create s e).st.flushing = false := by rw [hcst]; exact hflush
    have hco : (gst_spout_src_create s e).st.connected = false := by rw [hcst]; exact hconn
    obtain ⟨ih1, ih2⟩ := ih (gst_spout_src_create s e).st hfl hco hrest
    refine ⟨?_, ?_⟩
    · intro o ho
      simp only [create_run, List.mem_cons] at ho
      rcases ho with ho | ho
      · rw [ho]; exact ⟨hcret, hra⟩
      · rw [← hra]; exact ih1 o ho
    · intro o ho
      simp only [List.map_cons, connect_run, List.mem_cons] at ho
      rcases ho with ho | ho
      · rw [ho]; exact hret
      · rw [hst, ← hcst] at ho; exact ih2 o ho

/-- On non-negative values the C truncation is the floor. -/
theorem double_to_int_of_nonneg (q : ℚ) (h : 0 ≤ q) : double_to_int q = ⌊q⌋ := by
  unfold double_to_int
  rw [Int.tdiv_eq_ediv (Rat.num_nonneg.mpr h) (Int.ofNat_nonneg _)]
  exact Rat.floor_def.symm

/-- For a rate of at least 1 the frame duration is 10^9 divided by the truncated
rate. -/
theorem frame_duration_eq (f : ℚ) (h1 : 1 ≤ f) :
    frame_duration f = 1000000000 / ⌊f⌋₊ := by
  have hpos : (0 : ℚ) < f := lt_of_lt_of_le one_pos h1
  have hfl : (1 : ℤ) ≤ ⌊f⌋ := Int.le_floor.mpr (by simpa using h1)
  have hnat : ⌊f⌋.toNat = ⌊f⌋₊ := Int.floor_toNat f
  have hne : ¬ (⌊f⌋ ≤ 0) := by omega
  have hle : 1000000000 / ⌊f⌋₊ ≤ 18446744073709551615 :=
    le_trans (Nat.div_le_self _ _) (by norm_num)
  have h10 : Int.toNat 1000000000 = 1000000000 := rfl
  unfold frame_duration gst_util_uint64_scale_int
  simp only [hpos, if_true, double_to_int_of_nonneg f (le_of_lt hpos), GST_SECOND, G_MAXUINT64]
  simp only [Nat.cast_ofNat, Int.toNat_ofNat, one_mul, hnat, hne, or_false]
  norm_num
  rw [h10, if_neg (Nat.not_lt.mpr hle)]

/-- A real frame whose timestamp is not later than `prev_pts` carries the fallback
duration. -/
theorem create_frame_fallback (s : GstSpoutSrcPrivate) (e : CreateEnv) (t : List Call)
    (clock_time : Nat) (hpool : s.pool = true) (hacq : e.acquire = GstFlowReturn.OK)
    (hcopy : (gst_spout_src_copy_texture_to_buffer s e.copy).ret = GstFlowReturn.OK)
    (hclock : e.clock = some clock_time)
    (hlate : running_time clock_time e.base_time ≤
      (gst_spout_src_copy_texture_to_buffer s e.copy).st.prev_pts) :
    (create_frame s e t).ret = GstFlowReturn.OK ∧
    (create_frame s e t).buf =
      some { e.buffer with
        pts := running_time clock_time e.base_time,
        duration := frame_duration (gst_spout_src_copy_texture_to_buffer s e.copy).st.current_fps,
        offset := (gst_spout_src_copy_texture_to_buffer s e.copy).st.frame_number } := by
  have hnot : ¬ (running_time clock_time e.base_time >
      (gst_spout_src_copy_texture_to_buffer s e.copy).st.prev_pts) := Nat.not_lt.mpr hlate
  unfold create_frame
  simp only [hpool, hacq, hcopy, hclock, if_true, ne_eq, not_true_eq_false, if_false, hnot,
    ite_self, and_self]

/-- A non-flushing cycle of a connected source is the connected path. -/
theorem create_connected_eq (s : GstSpoutSrcPrivate) (e : CreateEnv)
    (hflush : s.flushing = false) (hconn : s.connected = true) (hspout : s.spout = true) :
    ∃ t, gst_spout_src_create s e = create_frame s e t := by
  unfold gst_spout_src_create
  simp only [hflush, hconn, hspout, Bool.and_self, Bool.false_eq_true, if_false,
    Bool.true_eq_false]
  exact ⟨_, rfl⟩

/-- The rate 29.97 truncates to 29. -/
theorem floor_2997 : ⌊(2997 / 100 : ℚ)⌋₊ = 29 := by
  rw [Nat.floor_eq_iff (by norm_num)]; norm_num

/-- The pull of `late_cycle` on `streaming` succeeds and changes no timing field. -/
theorem copy_streaming :
    (gst_spout_src_copy_texture_to_buffer streaming late_cycle.copy).ret = GstFlowReturn.OK ∧
    (gst_spout_src_copy_texture_to_buffer streaming late_cycle.copy).st.prev_pts = 100 ∧
    (gst_spout_src_copy_texture_to_buffer streaming late_cycle.copy).st.current_fps = 2997 / 100 ∧
    (gst_spout_src_copy_texture_to_buffer streaming late_cycle.copy).st.frame_number = 3 := by
  simp [gst_spout_src_copy_texture_to_buffer, streaming, late_cycle, idle_cycle, quiet_copy,
    started, GstSpoutSrcPrivate.init]

/-- No path of connect touches the pool or the flushing flag. -/
theorem connect_preserves (s : GstSpoutSrcPrivate) (e : SpoutEnv) :
    (gst_spout_src_connect s e).st.pool = s.pool ∧
    (gst_spout_src_connect s e).st.flushing = s.flushing := by
  by_cases h1 : s.spout = false ∧ e.new_ok = false
  · simp [gst_spout_src_connect, h1]
  by_cases h2 : (s.device && e.device_handle) = false
  · simp [gst_spout_src_connect, h1, h2]
  by_cases h3 : e.open_ok = false
  · simp [gst_spout_src_connect, h1, h2, h3]
  by_cases h4 : e.sender_count = 0
  · simp [gst_spout_src_connect, h1, h2, h3, h4]
  by_cases h5 : s.sender_name = ""
  · cases h6 : e.receive_ok <;>
      simp [gst_spout_src_connect, connect_failed, connect_success, h1, h2, h3, h4, h5, h6]
  · cases h7 : e.sender_info <;> cases h6 : e.receive_ok <;>
      simp [gst_spout_src_connect, connect_failed, connect_success, h1, h2, h3, h4, h5, h6, h7]

/-- A cycle whose connect attempt connects continues on the connected path. -/
theorem create_newly_connected_eq (s : GstSpoutSrcPrivate) (e : CreateEnv)
    (hflush : s.flushing = false) (hdis : (s.connected && s.spout) = false)
    (hret : (gst_spout_src_connect s e.connect).ret = true)
    (hconn : (gst_spout_src_connect s e.connect).st.connected = true)
    (hspout : (gst_spout_src_connect s e.connect).st.spout = true) :
    ∃ t, gst_spout_src_create s e = create_frame (gst_spout_src_connect s e.connect).st e t := by
  unfold gst_spout_src_create
  simp only [hflush, hdis, hret, hconn, hspout, Bool.and_self, Bool.false_eq_true, if_false,
    Bool.true_eq_false, false_and, if_true]
  exact ⟨_, rfl⟩

/-- A cycle that stays disconnected, with a pool, a successful acquire and a clock,
hands out the placeholder buffer. -/
theorem create_stays_disconnected_eq (s : GstSpoutSrcPrivate) (e : CreateEnv) (clock_time : Nat)
    (hflush : s.flushing = false) (hdis : (s.connected && s.spout) = false)
    (hstill : ((gst_spout_src_connect s e.connect).st.connected &&
      (gst_spout_src_connect s e.connect).st.spout) = false)
    (hsoft : ¬ ((gst_spout_src_connect s e.connect).ret = false ∧
      (gst_spout_src_connect s e.connect).st.reconnect_attempts ≥ 5))
    (hpool : s.pool = true) (hacq : e.acquire = GstFlowReturn.OK)
    (hclock : e.clock = some clock_time) :
    (gst_spout_src_create s e).ret = GstFlowReturn.OK ∧
    (gst_spout_src_create s e).st = (gst_spout_src_connect s e.connect).st ∧
    (gst_spout_src_create s e).buf =
      some { data := if e.map_ok then List.replicate e.buffer.data.length 0 else e.buffer.data,
             pts := running_time clock_time e.base_time,
             duration := frame_duration (gst_spout_src_connect s e.connect).st.current_fps,
             offset := e.buffer.offset } := by
  have hp : (gst_spout_src_connect s e.connect).st.pool = true := by
    rw [(connect_preserves s e.connect).1]; exact hpool
  unfold gst_spout_src_create
  simp only [hflush, hdis, hstill, hsoft, Bool.false_eq_true, if_false, if_true]
  unfold create_placeholder
  simp only [hp, hacq, hclock, Bool.true_eq_false, if_false, ne_eq, not_true_eq_false]
  refine ⟨trivial, trivial, ?_⟩
  cases e.map_ok <;> simp

/-- The running time is monotone in the clock reading. -/
theorem running_time_mono (c1 c2 base : Nat) (h : c1 ≤ c2) :
    running_time c1 base ≤ running_time c2 base := by
  unfold running_time
  split_ifs <;> omega

/-- A run of cycles that stay disconnected hands out one zeroed, stamped buffer
per cycle. -/
theorem create_run_placeholders (base : Nat) (es : List CreateEnv) :
    ∀ s : GstSpoutSrcPrivate, s.pool = true → run_stays_disconnected s es →
    (∀ e ∈ es, placeholder_ready base e) →
    (∀ o ∈ create_run s es, o.ret = GstFlowReturn.OK ∧
      ∃ b, o.buf = some b ∧ (∀ x ∈ b.data, x = 0) ∧
        b.duration = frame_duration o.st.current_fps) ∧
    stamps (create_run s es) = (clock_readings es).map (fun c => running_time c base) := by
  induction es with
  | nil =>
    intro s _ _ _
    exact ⟨fun o ho => absurd ho (List.not_mem_nil o), rfl⟩
  | cons e es ih =>
    intro s hpool hrun hready
    obtain ⟨⟨hflush, hdis, hstill, hsoft⟩, hrest⟩ := hrun
    obtain ⟨hacq, hmap, hbase, hclk⟩ := hready e (List.mem_cons_self e es)
    obtain ⟨c, hc⟩ := Option.ne_none_iff_exists'.mp hclk
    obtain ⟨hret, hst, hbuf⟩ :=
      create_stays_disconnected_eq s e c hflush hdis hstill hsoft hpool hacq hc
    have hpool2 : (gst_spout_src_create s e).st.pool = true := by
      rw [hst, (connect_preserves s e.connect).1]; exact hpool
    obtain ⟨ih1, ih2⟩ := ih (gst_spout_src_create s e).st hpool2 hrest
      (fun e2 he2 => hready e2 (List.mem_cons_of_mem e he2))
    refine ⟨?_, ?_⟩
    · intro o ho
      simp only [create_run, List.mem_cons] at ho
      rcases ho with ho | ho
      · rw [ho]
        refine ⟨hret, _, hbuf, ?_, ?_⟩
        · intro x hx
          simp only [hmap, if_true] at hx
          exact List.eq_of_mem_replicate hx
        · rw [hst]
      · exact ih1 o ho
    · simp only [stamps, create_run, clock_readings, List.map_cons, List.filterMap_cons, hbuf,
        Option.map_some', hc, Option.getD_some, hbase]
      simp only [stamps, clock_readings] at ih2
      rw [ih2]

/-- The ways the copy step can end, in terms of the state `s1` it works on
(the state it was given, or the one left by the connect it ran first): an early
error; a failed pull followed by disconnect and connect; a successful pull without
and with a metadata change. -/
theorem copy_cases (s : GstSpoutSrcPrivate) (e : CopyEnv) :
    ∃ s1, (s1 = s ∨ s1 = (gst_spout_src_connect s e.pre_connect).st) ∧
      (((gst_spout_src_copy_texture_to_buffer s e).st = s1 ∧
          (gst_spout_src_copy_texture_to_buffer s e).ret = GstFlowReturn.ERROR) ∨
       ((gst_spout_src_copy_texture_to_buffer s e).st =
            (gst_spout_src_connect
              (gst_spout_src_disconnect { s1 with connected := false }).st e.reconnect).st ∧
          (gst_spout_src_copy_texture_to_buffer s e).ret = GstFlowReturn.ERROR) ∨
       ((gst_spout_src_copy_texture_to_buffer s e).st = { s1 with last_receive_time := e.now } ∧
          (gst_spout_src_copy_texture_to_buffer s e).ret = GstFlowReturn.OK) ∨
       (∃ t, (gst_spout_src_copy_texture_to_buffer s e).st =
            (update_caps { s1 with last_receive_time := e.now } e t).st ∧
          (gst_spout_src_copy_texture_to_buffer s e).ret = GstFlowReturn.OK)) := by
  by_cases hw : (s.connected && s.spout) = true
  · refine ⟨s, Or.inl rfl, ?_⟩
    by_cases hm : e.is_d3d11_memory = false
    · left; simp [gst_spout_src_copy_texture_to_buffer, hw, hm]
    by_cases ht : e.texture = false
    · left; simp [gst_spout_src_copy_texture_to_buffer, hw, hm, ht]
    by_cases hd : (s.device && e.device_handle) = false
    · left; simp [gst_spout_src_copy_texture_to_buffer, hw, hm, ht, hd]
    by_cases hr : e.receive_ok = false
    · right; left; simp [gst_spout_src_copy_texture_to_buffer, hw, hm, ht, hd, hr]
    by_cases hu : (e.is_updated || s.first_frame) = true
    · right; right; right
      refine ⟨[], ?_, ?_⟩
      · simp [gst_spout_src_copy_texture_to_buffer, update_caps, hw, hm, ht, hd, hr, hu]
      · simp [gst_spout_src_copy_texture_to_buffer, update_caps, hw, hm, ht, hd, hr, hu]
    · right; right; left
      simp [gst_spout_src_copy_texture_to_buffer, hw, hm, ht, hd, hr, hu]
  · cases hc : (gst_spout_src_connect s e.pre_connect).ret
    · refine ⟨(gst_spout_src_connect s e.pre_connect).st, Or.inr rfl, Or.inl ?_⟩
      simp [gst_spout_src_copy_texture_to_buffer, hw, hc]
    · refine ⟨(gst_spout_src_connect s e.pre_connect).st, Or.inr rfl, ?_⟩
      by_cases hm : e.is_d3d11_memory = false
      · left; simp [gst_spout_src_copy_texture_to_buffer, hw, hc, hm]
      by_cases ht : e.texture = false
      · left; simp [gst_spout_src_copy_texture_to_buffer, hw, hc, hm, ht]
      by_cases hd : ((gst_spout_src_connect s e.pre_connect).st.device && e.device_handle) = false
      · left; simp [gst_spout_src_copy_texture_to_buffer, hw, hc, hm, ht, hd]
      by_cases hr : e.receive_ok = false
      · right; left; simp [gst_spout_src_copy_texture_to_buffer, hw, hc, hm, ht, hd, hr]
      by_cases hu : (e.is_updated || (gst_spout_src_connect s e.pre_connect).st.first_frame) = true
      · right; right; right
        refine ⟨[], ?_, ?_⟩
        · simp [gst_spout_src_copy_texture_to_buffer, update_caps, hw, hc, hm, ht, hd, hr, hu]
        · simp [gst_spout_src_copy_texture_to_buffer, update_caps, hw, hc, hm, ht, hd, hr, hu]
      · right; right; left
        simp [gst_spout_src_copy_texture_to_buffer, hw, hc, hm, ht, hd, hr, hu]

/-- A lost pull inside the copy step: the step reports an error, and the state
is the one left by disconnect followed by connect on the state marked
disconnected; the calls end with the failed pull, the marking, disconnect and
connect, in that order. -/
theorem copy_pull_lost_eq (s : GstSpoutSrcPrivate) (e : CopyEnv)
    (hconn : s.connected = true) (hspout : s.spout = true) (hmem : e.is_d3d11_memory = true)
    (htex : e.texture = true) (hdev : s.device = true) (hh : e.device_handle = true)
    (hrecv : e.receive_ok = false) :
    (gst_spout_src_copy_texture_to_buffer s e).ret = GstFlowReturn.ERROR ∧
    (gst_spout_src_copy_texture_to_buffer s e).st =
      (gst_spout_src_connect
        (gst_spout_src_disconnect { s with connected := false }).st e.reconnect).st ∧
    ∃ pre, (gst_spout_src_copy_texture_to_buffer s e).calls =
      pre ++ ([Call.ReceiveTexture, Call.lock, Call.unlock] ++
        ((gst_spout_src_disconnect { s with connected := false }).calls ++
          (gst_spout_src_connect
            (gst_spout_src_disconnect { s with connected := false }).st e.reconnect).calls)) := by
  refine ⟨?_, ?_, ?_⟩
  · simp [gst_spout_src_copy_texture_to_buffer, hconn, hspout, hmem, htex, hdev, hh, hrecv]
  · simp [gst_spout_src_copy_texture_to_buffer, hconn, hspout, hmem, htex, hdev, hh, hrecv]
  · cases hf : s.force_reconnect
    · exact ⟨[Call.lock, Call.unlock, Call.get_device_handle], by
        simp [gst_spout_src_copy_texture_to_buffer, hconn, hspout, hmem, htex, hdev, hh, hrecv,
          hf]⟩
    · by_cases hn : s.sender_name = ""
      · exact ⟨[Call.lock, Call.unlock, Call.get_device_handle, Call.ReleaseReceiver], by
          simp [gst_spout_src_copy_texture_to_buffer, hconn, hspout, hmem, htex, hdev, hh,
            hrecv, hf, hn]⟩
      · exact ⟨[Call.lock, Call.unlock, Call.get_device_handle,
          Call.SetReceiverName s.sender_name], by
          simp [gst_spout_src_copy_texture_to_buffer, hconn, hspout, hmem, htex, hdev, hh,
            hrecv, hf, hn]⟩

/-- A failed copy step on the connected path: the buffer is released last, none
is handed over, and the cycle returns OK with the state the copy step left. -/
theorem create_frame_copy_fails (s : GstSpoutSrcPrivate) (e : CreateEnv) (t : List Call)
    (hpool : s.pool = true) (hacq : e.acquire = GstFlowReturn.OK)
    (hne : (gst_spout_src_copy_texture_to_buffer s e.copy).ret ≠ GstFlowReturn.OK) :
    (create_frame s e t).ret = GstFlowReturn.OK ∧
    (create_frame s e t).buf = none ∧
    (create_frame s e t).st = (gst_spout_src_copy_texture_to_buffer s e.copy).st ∧
    ∃ pre, (create_frame s e t).calls =
      pre ++ ((gst_spout_src_copy_texture_to_buffer s e.copy).calls ++ [Call.buffer_unref]) := by
  unfold create_frame
  simp only [hpool, hacq, if_true, ne_eq, not_true_eq_false, if_false, hne, not_false_eq_true]
  refine ⟨trivial, trivial, trivial, ?_⟩
  cases s.caps with
  | none => exact ⟨t ++ [Call.lock, Call.unlock] ++ [Call.acquire_buffer], by simp⟩
  | some c =>
    exact ⟨t ++ [Call.lock, Call.unlock, Call.set_caps c] ++ [Call.acquire_buffer], by simp⟩

/-- The stamped buffer of a real frame: the running time as timestamp, the
difference to the previous timestamp or the fallback as duration, the frame
counter as offset; the counter advances modulo 2^64. -/
theorem create_frame_stamped (s : GstSpoutSrcPrivate) (e : CreateEnv) (t : List Call)
    (clock_time : Nat) (hpool : s.pool = true) (hacq : e.acquire = GstFlowReturn.OK)
    (hcopy : (gst_spout_src_copy_texture_to_buffer s e.copy).ret = GstFlowReturn.OK)
    (hclock : e.clock = some clock_time) :
    (create_frame s e t).ret = GstFlowReturn.OK ∧
    (create_frame s e t).buf =
      some { e.buffer with
        pts := running_time clock_time e.base_time,
        duration :=
          if GST_CLOCK_TIME_IS_VALID (gst_spout_src_copy_texture_to_buffer s e.copy).st.prev_pts
          then
            if running_time clock_time e.base_time >
                (gst_spout_src_copy_texture_to_buffer s e.copy).st.prev_pts
            then running_time clock_time e.base_time -
              (gst_spout_src_copy_texture_to_buffer s e.copy).st.prev_pts
            else frame_duration (gst_spout_src_copy_texture_to_buffer s e.copy).st.current_fps
          else frame_duration (gst_spout_src_copy_texture_to_buffer s e.copy).st.current_fps,
        offset := (gst_spout_src_copy_texture_to_buffer s e.copy).st.frame_number } ∧
    (create_frame s e t).st =
      { (gst_spout_src_copy_texture_to_buffer s e.copy).st with
        prev_pts := running_time clock_time e.base_time,
        frame_number :=
          ((gst_spout_src_copy_texture_to_buffer s e.copy).st.frame_number + 1) % 2 ^ 64 } := by
  unfold create_frame
  simp only [hpool, hacq, hcopy, hclock, if_true, ne_eq, not_true_eq_false, if_false, and_self]

/-- The copy step writes neither the frame counter nor the previous timestamp. -/
theorem copy_preserves_timing (s : GstSpoutSrcPrivate) (e : CopyEnv) :
    (gst_spout_src_copy_texture_to_buffer s e).st.frame_number = s.frame_number ∧
    (gst_spout_src_copy_texture_to_buffer s e).st.prev_pts = s.prev_pts := by
  obtain ⟨s1, hs1, hc⟩ := copy_cases s e
  have h1 : s1.frame_number = s.frame_number ∧ s1.prev_pts = s.prev_pts := by
    rcases hs1 with h | h
    · rw [h]; exact ⟨rfl, rfl⟩
    · rw [h]; exact connect_preserves_timing s e.pre_connect
  rcases hc with ⟨h, _⟩ | ⟨h, _⟩ | ⟨h, _⟩ | ⟨t, h, _⟩
  · rw [h]; exact h1
  · rw [h]
    have h2 := connect_preserves_timing
      (gst_spout_src_disconnect { s1 with connected := false }).st e.reconnect
    exact ⟨h2.1.trans h1.1, h2.2.trans h1.2⟩
  · rw [h]; exact h1
  · rw [h]; exact h1

/-- The copy step keeps the invariant on the sender name. -/
theorem copy_keeps_name_invariant (s : GstSpoutSrcPrivate) (e : CopyEnv)
    (h : name_implies_connected s) :
    name_implies_connected (gst_spout_src_copy_texture_to_buffer s e).st := by
  obtain ⟨s1, hs1, hc⟩ := copy_cases s e
  have h1 : name_implies_connected s1 := by
    rcases hs1 with h0 | h0
    · rw [h0]; exact h
    · rw [h0]; exact connect_keeps_name_invariant s e.pre_connect h
  rcases hc with ⟨h0, _⟩ | ⟨h0, _⟩ | ⟨h0, _⟩ | ⟨t, h0, _⟩
  · rw [h0]; exact h1
  · rw [h0]
    apply connect_keeps_name_invariant
    intro hne
    exact absurd rfl hne
  · rw [h0]; exact h1
  · rw [h0]
    intro _
    rfl

/-- Whatever buffer the placeholder path hands over when a clock is present
carries the running time as timestamp. -/
theorem create_placeholder_pts (s : GstSpoutSrcPrivate) (e : CreateEnv) (t : List Call)
    (c : Nat) (buf : GstBuffer) (hclock : e.clock = some c)
    (hb : (create_placeholder s e t).buf = some buf) :
    buf.pts = running_time c e.base_time := by
  unfold create_placeholder at hb
  by_cases hp : s.pool = false
  · simp [hp] at hb
  · by_cases ha : e.acquire = GstFlowReturn.OK
    · simp [hp, ha, hclock] at hb
      rw [← hb]
    · simp [hp, ha] at hb

/-- Whatever buffer the connected path hands over when a clock is present
carries the running time as timestamp. -/
theorem create_frame_pts (s : GstSpoutSrcPrivate) (e : CreateEnv) (t : List Call)
    (c : Nat) (buf : GstBuffer) (hclock : e.clock = some c)
    (hb : (create_frame s e t).buf = some buf) :
    buf.pts = running_time c e.base_time := by
  unfold create_frame at hb
  cases hp : s.pool
  · simp [hp] at hb
  · by_cases ha : e.acquire = GstFlowReturn.OK
    · by_cases hc : (gst_spout_src_copy_texture_to_buffer s e.copy).ret = GstFlowReturn.OK
      · simp [hp, ha, hc, hclock] at hb
        rw [← hb]
      · simp [hp, ha, hc] at hb
    · simp [hp, ha] at hb

/-- The connected path of the cycle keeps the invariant on the sender name. -/
theorem create_frame_keeps_name_invariant (s : GstSpoutSrcPrivate) (e : CreateEnv)
    (t : List Call) (h : name_implies_connected s) :
    name_implies_connected (create_frame s e t).st := by
  have hc := copy_keeps_name_invariant s e.copy h
  unfold create_frame
  cases hp : s.pool
  · simpa [hp] using h
  · by_cases ha : e.acquire = GstFlowReturn.OK
    · by_cases hr : (gst_spout_src_copy_texture_to_buffer s e.copy).ret = GstFlowReturn.OK
      · cases hk : e.clock with
        | none => simpa [hp, ha, hr, hk] using hc
        | some c =>
          simp only [hp, ha, hr, hk, if_true, ne_eq, not_true_eq_false, if_false]
          exact hc
      · simpa [hp, ha, hr] using hc
    · simpa [hp, ha] using h

/-- A whole create cycle keeps the invariant on the sender name. -/
theorem create_keeps_name_invariant (s : GstSpoutSrcPrivate) (e : CreateEnv)
    (h : name_implies_connected s) : name_implies_connected (gst_spout_src_create s e).st := by
  have hc := connect_keeps_name_invariant s e.connect h
  unfold gst_spout_src_create
  cases hf : s.flushing
  · by_cases hconn : (s.connected && s.spout) = false
    · by_cases hfatal : (gst_spout_src_connect s e.connect).ret = false ∧
          (gst_spout_src_connect s e.connect).st.reconnect_attempts ≥ 5
      · simp only [hconn, hfatal, and_self, if_true, Bool.false_eq_true, if_false]
        exact hc
      · by_cases hstill : ((gst_spout_src_connect s e.connect).st.connected &&
            (gst_spout_src_connect s e.connect).st.spout) = false
        · simp only [hconn, hfatal, hstill, if_true, if_false, Bool.false_eq_true]
          rw [(create_placeholder_ret_st _ _ _).2]
          exact hc
        · simp only [hconn, hfatal, hstill, if_true, if_false, Bool.false_eq_true]
          exact create_frame_keeps_name_invariant _ e _ hc
    · simp only [hconn, if_false, Bool.false_eq_true]
      exact create_frame_keeps_name_invariant s e _ h
  · simpa using h

/-- The caps publications of a connected cycle with stored caps whose pull
succeeds: two without a metadata update, three with one. -/
theorem create_connected_publications (s : GstSpoutSrcPrivate) (e : CreateEnv) (c : GstCaps)
    (hflush : s.flushing = false) (hconn : s.connected = true) (hspout : s.spout = true)
    (hcaps : s.caps = some c) (hfirst : s.first_frame = false) (hpool : s.pool = true)
    (hacq : e.acquire = GstFlowReturn.OK) (hmem : e.copy.is_d3d11_memory = true)
    (htex : e.copy.texture = true) (hdev : s.device = true)
    (hh : e.copy.device_handle = true) (hrecv : e.copy.receive_ok = true) :
    publications (gst_spout_src_create s e).calls = if e.copy.is_updated then 3 else 2 := by
  cases hu : e.copy.is_updated <;> cases hf : s.force_reconnect <;> cases hk : e.clock <;>
    by_cases hn : s.sender_name = "" <;>
    simp [publications, Call.is_set_caps, gst_spout_src_create, create_frame,
      gst_spout_src_copy_texture_to_buffer, update_caps, hflush, hconn, hspout, hcaps, hfirst,
      hpool, hacq, hmem, htex, hdev, hh, hrecv, hu, hf, hk, hn, List.filter]

/-- The stored state of the element connected to "cam". -/
theorem connected_live_eq :
    connected_live =
      connect_success { pooled with spout := true } live_env "cam" 640 480 2 := by
  have h : pull_succeeds pooled live_env := by
    simp [pull_succeeds, binds, pooled, started, live_env, failing_env,
      GstSpoutSrcPrivate.init]
  obtain ⟨_, hst⟩ := connect_pull_succeeds_eq pooled live_env h
  rcases hst with ⟨hname, _⟩ | ⟨_, hst⟩
  · exact absurd rfl hname
  · exact hst

/-- The element connected to "cam" after its first frame: connected, holding
caps of 640 by 480 BGRA, a pool and a device, not flushing. -/
theorem streaming_live_fields :
    streaming_live.flushing = false ∧ streaming_live.connected = true ∧
    streaming_live.spout = true ∧
    (∃ c : GstCaps, streaming_live.caps = some c ∧ c.info.width = 640 ∧ c.info.height = 480 ∧
      c.info.finfo = GstVideoFormat.BGRA) ∧
    streaming_live.first_frame = false ∧ streaming_live.pool = true ∧
    streaming_live.device = true ∧ streaming_live.connected_sender_name = "cam" := by
  unfold streaming_live
  rw [connected_live_eq]
  exact ⟨rfl, rfl, rfl, ⟨_, rfl, rfl, rfl, by decide⟩, rfl, rfl, rfl, rfl⟩

/-! ## Lemmas on traces -/

/-- Replaying a concatenation is replaying its parts in turn. -/
theorem lock_check_append (a b : List Call) : ∀ held : Bool,
    lock_check held (a ++ b) = (lock_check held a).bind (fun h2 => lock_check h2 b) := by
  induction a with
  | nil => intro held; rfl
  | cons c cs ih =>
    intro held
    cases c <;> cases held <;> simp [lock_check, ih]

/-- Connect maps no buffer, takes the lock first and releases it last. -/
theorem connect_trace (s : GstSpoutSrcPrivate) (e : SpoutEnv) :
    Call.buffer_map ∉ (gst_spout_src_connect s e).calls ∧
    lock_check false (gst_spout_src_connect s e).calls = some false := by
  cases hs : s.spout <;> cases hx : e.texture <;> cases h1 : e.new_ok <;>
  cases h2 : (s.device && e.device_handle) <;> cases h3 : e.open_ok <;>
    (first
      | (simp [gst_spout_src_connect, connect_failed, lock_check, hs, hx, h1, h2, h3]; done)
      | (by_cases h4 : e.sender_count = 0
         · simp [gst_spout_src_connect, connect_failed, lock_check, hs, hx, h1, h2, h3, h4]
         · by_cases h5 : s.sender_name = ""
           · cases h6 : e.receive_ok <;>
               simp [gst_spout_src_connect, connect_failed, lock_check, hs, hx, h1, h2, h3, h4,
                 h5, h6]
           · cases h7 : e.sender_info <;> cases h6 : e.receive_ok <;>
               simp [gst_spout_src_connect, connect_failed, lock_check, hs, hx, h1, h2, h3, h4,
                 h5, h6, h7]))

/-- Disconnect maps no buffer, takes the lock first and releases it last. -/
theorem disconnect_trace (s : GstSpoutSrcPrivate) :
    Call.buffer_map ∉ (gst_spout_src_disconnect s).calls ∧
    lock_check false (gst_spout_src_disconnect s).calls = some false := by
  cases h1 : s.texture_srv <;> cases h2 : s.shared_texture <;> cases h3 : s.spout <;>
    simp [gst_spout_src_disconnect, lock_check, h1, h2, h3]

/-- Replaying a conditional trace. -/
theorem lock_check_ite (c : Prop) [Decidable c] (held : Bool) (a b : List Call) :
    lock_check held (if c then a else b) =
      if c then lock_check held a else lock_check held b := by
  split <;> rfl

/-- Connect maps no buffer. -/
theorem connect_no_map (s : GstSpoutSrcPrivate) (e : SpoutEnv) :
    Call.buffer_map ∉ (gst_spout_src_connect s e).calls := (connect_trace s e).1

/-- Connect keeps the lock discipline. -/
theorem connect_locks (s : GstSpoutSrcPrivate) (e : SpoutEnv) :
    lock_check false (gst_spout_src_connect s e).calls = some false := (connect_trace s e).2

/-- Disconnect maps no buffer. -/
theorem disconnect_no_map (s : GstSpoutSrcPrivate) :
    Call.buffer_map ∉ (gst_spout_src_disconnect s).calls := (disconnect_trace s).1

/-- Disconnect keeps the lock discipline. -/
theorem disconnect_locks (s : GstSpoutSrcPrivate) :
    lock_check false (gst_spout_src_disconnect s).calls = some false := (disconnect_trace s).2

/-- The copy step maps no buffer and keeps the lock discipline on every path. -/
theorem copy_trace (s : GstSpoutSrcPrivate) (e : CopyEnv) :
    Call.buffer_map ∉ (gst_spout_src_copy_texture_to_buffer s e).calls ∧
    lock_check false (gst_spout_src_copy_texture_to_buffer s e).calls = some false := by
  by_cases hw : (s.connected && s.spout) = true
  ·
    cases hm : e.is_d3d11_memory <;> cases ht : e.texture <;>
    cases hd : (s.device && e.device_handle) <;>
      (first
        | (simp [gst_spout_src_copy_texture_to_buffer, update_caps, lock_check, lock_check_append, lock_check_ite,
          connect_no_map, connect_locks, disconnect_no_map, disconnect_locks, hw, hm, ht, hd]; done)
        | (cases hf : s.force_reconnect <;> cases hr : e.receive_ok <;>
           cases hu : (e.is_updated || s.first_frame) <;>
           by_cases hn : s.sender_name = "" <;>
           simp [gst_spout_src_copy_texture_to_buffer, update_caps, lock_check, lock_check_append, lock_check_ite,
          connect_no_map, connect_locks, disconnect_no_map, disconnect_locks, hw, hm, ht, hd, hf, hr, hu, hn]))
  · cases hc : (gst_spout_src_connect s e.pre_connect).ret
    · simp [gst_spout_src_copy_texture_to_buffer, update_caps, lock_check, lock_check_append, lock_check_ite,
          connect_no_map, connect_locks, disconnect_no_map, disconnect_locks, hw, hc]
    ·
      cases hm : e.is_d3d11_memory <;> cases ht : e.texture <;>
      cases hd : ((gst_spout_src_connect s e.pre_connect).st.device && e.device_handle) <;>
        (first
          | (simp [gst_spout_src_copy_texture_to_buffer, update_caps, lock_check, lock_check_append, lock_check_ite,
            connect_no_map, connect_locks, disconnect_no_map, disconnect_locks, hw, hc, hm, ht, hd]; done)
          | (cases hf : (gst_spout_src_connect s e.pre_connect).st.force_reconnect <;> cases hr : e.receive_ok <;>
             cases hu : (e.is_updated || (gst_spout_src_connect s e.pre_connect).st.first_frame) <;>
             by_cases hn : (gst_spout_src_connect s e.pre_connect).st.sender_name = "" <;>
             simp [gst_spout_src_copy_texture_to_buffer, update_caps, lock_check, lock_check_append, lock_check_ite,
            connect_no_map, connect_locks, disconnect_no_map, disconnect_locks, hw, hc, hm, ht, hd, hf, hr, hu, hn]))


/-- The copy step maps no buffer. -/
theorem copy_no_map (s : GstSpoutSrcPrivate) (e : CopyEnv) :
    Call.buffer_map ∉ (gst_spout_src_copy_texture_to_buffer s e).calls := (copy_trace s e).1

/-- The copy step keeps the lock discipline. -/
theorem copy_locks (s : GstSpoutSrcPrivate) (e : CopyEnv) :
    lock_check false (gst_spout_src_copy_texture_to_buffer s e).calls = some false :=
  (copy_trace s e).2

/-- The connected path maps no buffer and keeps the lock discipline. -/
theorem create_frame_trace (s : GstSpoutSrcPrivate) (e : CreateEnv) (t : List Call) :
    (Call.buffer_map ∉ t → Call.buffer_map ∉ (create_frame s e t).calls) ∧
    (lock_check false t = some false →
      lock_check false (create_frame s e t).calls = some false) := by
  cases hcaps : s.caps <;> cases hp : s.pool <;>
    by_cases ha : e.acquire = GstFlowReturn.OK <;>
    by_cases hc : (gst_spout_src_copy_texture_to_buffer s e.copy).ret = GstFlowReturn.OK <;>
    cases hk : e.clock <;>
    (constructor <;> intro ht <;>
      simp [create_frame, lock_check, lock_check_append, copy_no_map, copy_locks, hcaps, hp, ha,
        hc, hk, ht])

/-- The placeholder path maps every buffer it hands over and keeps the lock
discipline. -/
theorem create_placeholder_trace (s : GstSpoutSrcPrivate) (e : CreateEnv) (t : List Call) :
    ((create_placeholder s e t).buf ≠ none →
      Call.buffer_map ∈ (create_placeholder s e t).calls) ∧
    (lock_check false t = some false →
      lock_check false (create_placeholder s e t).calls = some false) := by
  cases hp : s.pool <;> by_cases ha : e.acquire = GstFlowReturn.OK <;> cases hk : e.clock <;>
    (constructor <;> intro ht <;>
      simp [create_placeholder, lock_check, lock_check_append, hp, ha, hk, ht] at ht ⊢)

/-- A create cycle ends before any buffer is acquired, or continues on the
placeholder path, or on the connected path, from a state with the same frame
counter and after calls that keep the lock discipline and map no buffer. -/
theorem create_cases (s : GstSpoutSrcPrivate) (e : CreateEnv) :
    ∃ s1 t, s1.frame_number = s.frame_number ∧ Call.buffer_map ∉ t ∧
      lock_check false t = some false ∧
      (((gst_spout_src_create s e).buf = none ∧ (gst_spout_src_create s e).st = s1 ∧
          lock_check false (gst_spout_src_create s e).calls = some false) ∨
        gst_spout_src_create s e = create_placeholder s1 e t ∨
        gst_spout_src_create s e = create_frame s1 e t) := by
  have hfn := (connect_preserves_timing s e.connect).1
  cases hf : s.flushing
  · by_cases hconn : (s.connected && s.spout) = false
    · by_cases hfatal : (gst_spout_src_connect s e.connect).ret = false ∧
          (gst_spout_src_connect s e.connect).st.reconnect_attempts ≥ 5
      · refine ⟨(gst_spout_src_connect s e.connect).st, [], hfn, List.not_mem_nil _, rfl,
          Or.inl ?_⟩
        simp [gst_spout_src_create, hf, hconn, hfatal, lock_check, lock_check_append,
          connect_locks]
      · refine ⟨(gst_spout_src_connect s e.connect).st,
          [Call.lock, Call.unlock, Call.lock, Call.unlock] ++
            (gst_spout_src_connect s e.connect).calls ++ [Call.lock, Call.unlock],
          hfn, ?_, ?_, Or.inr ?_⟩
        · simp [connect_no_map]
        · simp [lock_check, lock_check_append, connect_locks]
        · by_cases hstill : ((gst_spout_src_connect s e.connect).st.connected &&
              (gst_spout_src_connect s e.connect).st.spout) = false
          · left
            simp only [gst_spout_src_create, hf, hconn, hfatal, hstill, if_true, if_false,
              Bool.false_eq_true]
          · right
            simp only [gst_spout_src_create, hf, hconn, hfatal, hstill, if_true, if_false,
              Bool.false_eq_true, Bool.true_eq_false]
    · have hconn2 : (s.connected && s.spout) = true := by
        cases h : (s.connected && s.spout)
        · exact absurd h hconn
        · rfl
      cases hcaps : s.caps with
      | none =>
        refine ⟨s, [Call.lock, Call.unlock, Call.lock, Call.unlock], rfl, by simp,
          by simp [lock_check], Or.inr (Or.inr ?_)⟩
        simp only [gst_spout_src_create, hf, hconn2, hcaps, if_false, Bool.false_eq_true,
          Bool.true_eq_false]
      | some c =>
        refine ⟨s, [Call.lock, Call.unlock, Call.lock, Call.unlock] ++ [Call.set_caps c], rfl,
          by simp, by simp [lock_check], Or.inr (Or.inr ?_)⟩
        simp only [gst_spout_src_create, hf, hconn2, hcaps, if_false, Bool.false_eq_true,
          Bool.true_eq_false]
  · refine ⟨s, [], rfl, List.not_mem_nil _, rfl, Or.inl ?_⟩
    simp [gst_spout_src_create, hf, lock_check]

/-- A prefix of a disciplined trace that ends right before a caps publication
leaves the lock released. -/
theorem lock_check_before_set_caps (pre post : List Call) (c : GstCaps) (held b : Bool)
    (h : lock_check held (pre ++ Call.set_caps c :: post) = some b) :
    lock_check held pre = some false := by
  rw [lock_check_append] at h
  cases hp : lock_check held pre with
  | none => rw [hp] at h; simp at h
  | some h2 =>
    cases h2
    · rfl
    · rw [hp] at h; simp [lock_check] at h

/-- A whole create cycle keeps the lock discipline. -/
theorem create_locks (s : GstSpoutSrcPrivate) (e : CreateEnv) :
    lock_check false (gst_spout_src_create s e).calls = some false := by
  obtain ⟨s1, t, _, _, ht, hcase⟩ := create_cases s e
  rcases hcase with ⟨_, _, h⟩ | h | h
  · exact h
  · rw [h]; exact (create_placeholder_trace s1 e t).2 ht
  · rw [h]; exact (create_frame_trace s1 e t).2 ht

/-- A start that succeeds leaves the frame counter at 0 and no previous
timestamp. -/
theorem start_resets_timing (s : GstSpoutSrcPrivate) (e : StartEnv)
    (h : (gst_spout_src_start s e).ret = true) :
    (gst_spout_src_start s e).st.frame_number = 0 ∧
    (gst_spout_src_start s e).st.prev_pts = GST_CLOCK_TIME_NONE := by
  unfold gst_spout_src_start at h ⊢
  by_cases hd : (s.device || e.ensure_device) = false
  · simp [hd] at h
  · simp [hd]

/-- The binary exponent of a positive rational lying between two consecutive
powers of two. -/
theorem log_two_eq (x : ℚ) (k : Int) (hx : 0 < x) (hlo : (2 : ℚ) ^ k ≤ x)
    (hhi : x < (2 : ℚ) ^ (k + 1)) : Int.log 2 x = k := by
  have h1 : k ≤ Int.log 2 x :=
    (Int.zpow_le_iff_le_log (by norm_num) hx).mp (by exact_mod_cast hlo)
  have h2 : Int.log 2 x < k + 1 :=
    (Int.lt_zpow_iff_log_lt (by norm_num) hx).mp (by exact_mod_cast hhi)
  omega

/-- Rounding a positive normal number with binary exponent `k`: the nearest
multiple of `2 ^ (k - 52)`. -/
theorem round_double_eq (x : ℚ) (k : Int) (hx : 0 < x) (hlo : (2 : ℚ) ^ k ≤ x)
    (hhi : x < (2 : ℚ) ^ (k + 1)) (hk : -1022 ≤ k) :
    round_double x = round_half_even (x / 2 ^ (k - 52)) * 2 ^ (k - 52) := by
  unfold round_double
  rw [if_neg (ne_of_gt hx), abs_of_pos hx, log_two_eq x k hx hlo hhi, max_eq_left hk]

/-- An integer rounds to itself. -/
theorem round_half_even_int (n : Int) : round_half_even (n : ℚ) = n := by
  unfold round_half_even
  simp

/-- Rounding to the nearest integer moves a rational by at most one half. -/
theorem round_half_even_near (x : ℚ) : |(round_half_even x : ℚ) - x| ≤ 1 / 2 := by
  have h0 : (⌊x⌋ : ℚ) ≤ x := Int.floor_le x
  have h1 : x < ⌊x⌋ + 1 := Int.lt_floor_add_one x
  unfold round_half_even
  rw [abs_le]
  split_ifs with ha hb hc
  · constructor <;> linarith
  · push_cast; constructor <;> linarith
  · constructor <;> linarith
  · push_cast; constructor <;> linarith

/-- The rate 1/2048 is kept by the sanitiser; its product with 1000 is the
double 0.48828125, which truncates to 0 thousandths. -/
theorem tiny_rate_truncates :
    sanitize_fps (1 / 2048) = 1 / 2048 ∧
    double_to_int (double_mul (sanitize_fps (1 / 2048)) 1000) = 0 := by
  have h1 : sanitize_fps (1 / 2048) = 1 / 2048 := by norm_num [sanitize_fps]
  refine ⟨h1, ?_⟩
  rw [h1]
  unfold double_mul
  rw [round_double_eq (1 / 2048 * 1000) (-2) (by norm_num) (by norm_num) (by norm_num)
    (by norm_num)]
  have h : (1 / 2048 * 1000 : ℚ) / 2 ^ ((-2 : ℤ) - 52) = ((125 * 2 ^ 46 : ℤ) : ℚ) := by norm_num
  rw [h, round_half_even_int, double_to_int_of_nonneg _ (by norm_num), Int.floor_eq_iff]
  norm_num

/-- The default rate is published as 30000 thousandths. -/
theorem default_rate_thousandths :
    double_to_int (double_mul DEFAULT_FRAMERATE 1000) = 30000 := by
  unfold double_mul DEFAULT_FRAMERATE
  rw [round_double_eq (30 * 1000) 14 (by norm_num) (by norm_num) (by norm_num) (by norm_num)]
  have h : (30 * 1000 : ℚ) / 2 ^ ((14 : ℤ) - 52) = ((30000 * 2 ^ 38 : ℤ) : ℚ) := by norm_num
  rw [h, round_half_even_int]
  norm_num [double_to_int]

/-- Half a frame per second truncates to the divisor 0, which the scaling
utility refuses. -/
theorem half_rate_duration :
    double_to_int (1 / 2) = 0 ∧ frame_duration (1 / 2) = GST_CLOCK_TIME_NONE := by
  have h0 : double_to_int (1 / 2) = 0 := by
    rw [double_to_int_of_nonneg _ (by norm_num), Int.floor_eq_iff]
    norm_num
  refine ⟨h0, ?_⟩
  have hpos : (0 : ℚ) < 1 / 2 := by norm_num
  unfold frame_duration gst_util_uint64_scale_int
  simp only [hpos, if_true, h0]
  simp [G_MAXUINT64, GST_CLOCK_TIME_NONE]

/-- The pull of a quiet cycle on `slow_stream` succeeds and changes no timing
field. -/
theorem copy_slow_stream :
    (gst_spout_src_copy_texture_to_buffer slow_stream late_cycle.copy).ret = GstFlowReturn.OK ∧
    (gst_spout_src_copy_texture_to_buffer slow_stream late_cycle.copy).st.prev_pts = 100 ∧
    (gst_spout_src_copy_texture_to_buffer slow_stream late_cycle.copy).st.current_fps = 1 / 2 := by
  simp [gst_spout_src_copy_texture_to_buffer, slow_stream, streaming, late_cycle, idle_cycle,
    quiet_copy, started, GstSpoutSrcPrivate.init]

/-! ## Theorems -/

/-- C1, evaluation at the failing input: the started element facing a transport
that lists a producer and fails every pull, at the default debug threshold.  Six
consecutive connects all return TRUE and leave `reconnect_attempts` at 0: no
failure is counted and none is reported as Failed.  While warnings are logged
the same six failures are counted 1 to 6 and reported as Failed from the fifth
on. -/
theorem failed_pull_not_counted :
    run_fails started [failing_env, failing_env, failing_env, failing_env, failing_env, failing_env] ∧
    failing_env.log_warning = false ∧
    started.reconnect_attempts = 0 ∧
    (connect_run started [failing_env, failing_env, failing_env, failing_env, failing_env, failing_env]).map Out.ret =
      [true, true, true, true, true, true] ∧
    (connect_run started [failing_env, failing_env, failing_env, failing_env, failing_env, failing_env]).map
      (fun o => o.st.reconnect_attempts) = [0, 0, 0, 0, 0, 0] ∧
    run_fails started [logged_env, logged_env, logged_env, logged_env, logged_env, logged_env] ∧
    (connect_run started [logged_env, logged_env, logged_env, logged_env, logged_env, logged_env]).map Out.ret =
      [true, true, true, true, false, false] ∧
    (connect_run started [logged_env, logged_env, logged_env, logged_env, logged_env, logged_env]).map
      (fun o => o.st.reconnect_attempts) = [1, 2, 3, 4, 5, 6] := by
  refine ⟨?_, rfl, rfl, ?_, ?_, ?_, ?_, ?_⟩
  · simp [run_fails, pull_fails, binds, started, failing_env, GstSpoutSrcPrivate.init,
      gst_spout_src_connect, connect_failed, attempts_after_warning]
  · simp [connect_run, started, failing_env, GstSpoutSrcPrivate.init,
      gst_spout_src_connect, connect_failed, attempts_after_warning]
  · simp [connect_run, started, failing_env, GstSpoutSrcPrivate.init,
      gst_spout_src_connect, connect_failed, attempts_after_warning]
  · simp [run_fails, pull_fails, binds, started, logged_env, failing_env,
      GstSpoutSrcPrivate.init, gst_spout_src_connect, connect_failed, attempts_after_warning]
  · simp [connect_run, started, logged_env, failing_env, GstSpoutSrcPrivate.init,
      gst_spout_src_connect, connect_failed, attempts_after_warning]
  · simp [connect_run, started, logged_env, failing_env, GstSpoutSrcPrivate.init,
      gst_spout_src_connect, connect_failed, attempts_after_warning]

/-- C2, counterexample: from `reconnect_attempts = 0`, five consecutive create
cycles with no producer present all end in the soft outcome: every connect
returns TRUE, no cycle returns a flow error and the counter is still 0. -/
theorem no_producer_fifth_attempt_soft :
    cycles_no_producer started [idle_cycle, idle_cycle, idle_cycle, idle_cycle, idle_cycle] ∧
    started.reconnect_attempts = 0 ∧
    (connect_run started [empty_env, empty_env, empty_env, empty_env, empty_env]).map Out.ret =
      [true, true, true, true, true] ∧
    (create_run started [idle_cycle, idle_cycle, idle_cycle, idle_cycle, idle_cycle]).map
      CreateOut.ret =
      [GstFlowReturn.OK, GstFlowReturn.OK, GstFlowReturn.OK, GstFlowReturn.OK,
        GstFlowReturn.OK] ∧
    (create_run started [idle_cycle, idle_cycle, idle_cycle, idle_cycle, idle_cycle]).map
      (fun o => o.st.reconnect_attempts) = [0, 0, 0, 0, 0] := by
  refine ⟨?_, rfl, ?_, ?_, ?_⟩
  · simp [cycles_no_producer, no_producer, binds, started, idle_cycle, empty_env, failing_env,
      GstSpoutSrcPrivate.init, gst_spout_src_create, gst_spout_src_connect, create_placeholder]
  · simp [connect_run, gst_spout_src_connect, started, empty_env, failing_env,
      GstSpoutSrcPrivate.init]
  · simp [create_run, gst_spout_src_create, gst_spout_src_connect, create_placeholder, started,
      idle_cycle, empty_env, failing_env, GstSpoutSrcPrivate.init]
  · simp [create_run, gst_spout_src_create, gst_spout_src_connect, create_placeholder, started,
      idle_cycle, empty_env, failing_env, GstSpoutSrcPrivate.init]

/-- C2 (amended): from a disconnected, non-flushing state, across any number of
consecutive create cycles whose connect attempt finds no producer present, every
attempt is soft: every connect returns TRUE and is not fatal, every cycle
returns OK, and `reconnect_attempts` keeps the value the run started with, so it
stays 0 when it starts at 0; no attempt, the fifth included, yields the fatal
outcome. -/
theorem no_producer_never_fatal (s : GstSpoutSrcPrivate) (es : List CreateEnv)
    (hflush : s.flushing = false) (hconn : s.connected = false)
    (hrun : cycles_no_producer s es) :
    (connect_run s (es.map CreateEnv.connect)).length = es.length ∧
    (create_run s es).length = es.length ∧
    (∀ o ∈ connect_run s (es.map CreateEnv.connect), o.ret = true ∧ ¬ fatal_connect o) ∧
    (∀ o ∈ create_run s es, o.ret = GstFlowReturn.OK ∧
      o.st.reconnect_attempts = s.reconnect_attempts) ∧
    (s.reconnect_attempts = 0 → ∀ o ∈ create_run s es, o.st.reconnect_attempts = 0) := by
  obtain ⟨h1, h2⟩ := create_run_idle es s hflush hconn hrun
  refine ⟨?_, create_run_length es s, ?_, h1, ?_⟩
  · rw [connect_run_length, List.length_map]
  · intro o ho
    have hr := h2 o ho
    refine ⟨hr, ?_⟩
    intro hf
    rw [hf.1] at hr
    exact Bool.noConfusion hr
  · intro h0 o ho
    rw [← h0]
    exact (h1 o ho).2

/-- C2, witness: six idle cycles from the started state, the counter at 0
throughout. -/
theorem no_producer_never_fatal_witness :
    (started.flushing = false ∧ started.connected = false ∧
      started.reconnect_attempts = 0) ∧
    cycles_no_producer started [idle_cycle, idle_cycle, idle_cycle, idle_cycle, idle_cycle, idle_cycle] ∧
    (create_run started [idle_cycle, idle_cycle, idle_cycle, idle_cycle, idle_cycle, idle_cycle]).length = 6 ∧
    (∀ o ∈ connect_run started ([idle_cycle, idle_cycle, idle_cycle, idle_cycle, idle_cycle, idle_cycle].map CreateEnv.connect),
      o.ret = true ∧ ¬ fatal_connect o) ∧
    (∀ o ∈ create_run started [idle_cycle, idle_cycle, idle_cycle, idle_cycle, idle_cycle, idle_cycle],
      o.ret = GstFlowReturn.OK ∧ o.st.reconnect_attempts = started.reconnect_attempts) ∧
    (∀ o ∈ create_run started [idle_cycle, idle_cycle, idle_cycle, idle_cycle, idle_cycle, idle_cycle], o.st.reconnect_attempts = 0) := by
  have hn : cycles_no_producer started [idle_cycle, idle_cycle, idle_cycle, idle_cycle, idle_cycle, idle_cycle] := by
    simp [cycles_no_producer, no_producer, binds, started, idle_cycle, empty_env, failing_env,
      GstSpoutSrcPrivate.init, gst_spout_src_create, gst_spout_src_connect, create_placeholder]
  have h := no_producer_never_fatal started [idle_cycle, idle_cycle, idle_cycle, idle_cycle, idle_cycle, idle_cycle] rfl rfl hn
  exact ⟨⟨rfl, rfl, rfl⟩, hn, h.2.1, h.2.2.1, h.2.2.2.1, h.2.2.2.2 rfl⟩

/-- C3: when the transport binds to the device and enumerates zero producers,
connect returns TRUE (still disconnected, not an error) and leaves `connected`,
`reconnect_attempts`, `connected_sender_name`, the stored video info, the
stored caps and the current frame rate unchanged; the only field it may change
is the transport client pointer. -/
theorem connect_no_producer_soft (s : GstSpoutSrcPrivate) (e : SpoutEnv)
    (h : no_producer s e) :
    (gst_spout_src_connect s e).ret = true ∧
    (gst_spout_src_connect s e).st.connected = s.connected ∧
    (gst_spout_src_connect s e).st.reconnect_attempts = s.reconnect_attempts ∧
    (gst_spout_src_connect s e).st.connected_sender_name = s.connected_sender_name ∧
    (gst_spout_src_connect s e).st.video_info = s.video_info ∧
    (gst_spout_src_connect s e).st.caps = s.caps ∧
    (gst_spout_src_connect s e).st.current_fps = s.current_fps ∧
    (gst_spout_src_connect s e).st = { s with spout := true } := by
  obtain ⟨hret, hst⟩ := connect_no_producer_eq s e h
  rw [hst]
  exact ⟨hret, rfl, rfl, rfl, rfl, rfl, rfl, rfl⟩

/-- C3, witness: the started element facing a transport that lists no producer. -/
theorem connect_no_producer_soft_witness :
    no_producer started empty_env ∧
    (gst_spout_src_connect started empty_env).ret = true ∧
    (gst_spout_src_connect started empty_env).st.connected = false ∧
    (gst_spout_src_connect started empty_env).st.reconnect_attempts = 0 := by
  have hn : no_producer started empty_env := by
    simp [no_producer, binds, started, empty_env, failing_env, GstSpoutSrcPrivate.init]
  have h := connect_no_producer_soft started empty_env hn
  exact ⟨hn, h.1, h.2.1, h.2.2.1⟩

/-- C4: the frame-rate sanitiser maps every rate `r` with `r <= 0` or `r > 1000`
to the default 30 and returns every rate with `0 < r <= 1000` unchanged; -10, 0
and 1500 give 30, and 24, 60 and 29.97 give themselves; it is what connect
stores as `current_fps` after a successful connection in either branch, and
what metadata-change detection stores. -/
theorem sanitize_fps_policy (r : ℚ) :
    ((r ≤ 0 ∨ r > 1000) → sanitize_fps r = 30) ∧
    ((0 < r ∧ r ≤ 1000) → sanitize_fps r = r) ∧
    sanitize_fps (-10) = 30 ∧ sanitize_fps 0 = 30 ∧ sanitize_fps 1500 = 30 ∧
    sanitize_fps 24 = 24 ∧ sanitize_fps 60 = 60 ∧ sanitize_fps (2997 / 100) = 2997 / 100 ∧
    (∀ s e, pull_succeeds s e → e.fps = r →
      (gst_spout_src_connect s e).st.current_fps = sanitize_fps r) ∧
    (∀ s e t, e.sender_fps = r → (update_caps s e t).st.current_fps = sanitize_fps r) := by
  refine ⟨?_, ?_, ?_, ?_, ?_, ?_, ?_, ?_, ?_, ?_⟩
  · intro h
    simp [sanitize_fps, h, DEFAULT_FRAMERATE]
  · rintro ⟨h1, h2⟩
    have : ¬ (r ≤ 0 ∨ r > 1000) := by
      rintro (h | h)
      · exact absurd h1 (not_lt.mpr h)
      · exact absurd h (not_lt.mpr h2)
    simp [sanitize_fps, this]
  · norm_num [sanitize_fps, DEFAULT_FRAMERATE]
  · norm_num [sanitize_fps, DEFAULT_FRAMERATE]
  · norm_num [sanitize_fps, DEFAULT_FRAMERATE]
  · norm_num [sanitize_fps, DEFAULT_FRAMERATE]
  · norm_num [sanitize_fps, DEFAULT_FRAMERATE]
  · norm_num [sanitize_fps, DEFAULT_FRAMERATE]
  · intro s e h hr
    obtain ⟨_, hst⟩ := connect_pull_succeeds_eq s e h
    rcases hst with ⟨_, info, _, hst⟩ | ⟨_, hst⟩
    · rw [hst, ← hr]; rfl
    · rw [hst, ← hr]; rfl
  · intro s e t hr
    rw [← hr]; rfl

/-- C4, witness: a producer reporting 1500 is stored as 30, one reporting 29.97
is stored as 29.97. -/
theorem sanitize_fps_policy_witness :
    ((1500 : ℚ) ≤ 0 ∨ (1500 : ℚ) > 1000) ∧ sanitize_fps 1500 = 30 ∧
    ((0 : ℚ) < 2997 / 100 ∧ (2997 / 100 : ℚ) ≤ 1000) ∧
    sanitize_fps (2997 / 100) = 2997 / 100 ∧
    pull_succeeds started live_env ∧
    (gst_spout_src_connect started live_env).st.current_fps = sanitize_fps (2997 / 100) := by
  have h1 : (1500 : ℚ) ≤ 0 ∨ (1500 : ℚ) > 1000 := Or.inr (by norm_num)
  have h2 : (0 : ℚ) < 2997 / 100 ∧ (2997 / 100 : ℚ) ≤ 1000 := by norm_num
  have h3 : pull_succeeds started live_env := by
    simp [pull_succeeds, binds, started, live_env, failing_env, GstSpoutSrcPrivate.init]
  exact ⟨h1, (sanitize_fps_policy 1500).1 h1, h2, (sanitize_fps_policy (2997 / 100)).2.1 h2, h3,
    (sanitize_fps_policy (2997 / 100)).2.2.2.2.2.2.2.2.1 started live_env h3 rfl⟩

/-- C5: for every transport pixel-format code the resolved output format is not
UNKNOWN and is one of the pad-template formats; B8G8R8A8 gives BGRA, R8G8B8A8
gives RGBA, B8G8R8X8 gives BGRx, code 122 gives RGBx and every other code gives
BGRA; the resolved format is the one connect and metadata-change detection
store in the video info. -/
theorem resolved_format_never_unknown (code : Nat) :
    resolve_video_format code ≠ GstVideoFormat.UNKNOWN ∧
    resolve_video_format code ∈ GST_SPOUT_SRC_FORMATS ∧
    resolve_video_format DXGI_FORMAT_B8G8R8A8_UNORM = GstVideoFormat.BGRA ∧
    resolve_video_format DXGI_FORMAT_R8G8B8A8_UNORM = GstVideoFormat.RGBA ∧
    resolve_video_format DXGI_FORMAT_B8G8R8X8_UNORM = GstVideoFormat.BGRx ∧
    resolve_video_format 122 = GstVideoFormat.RGBx ∧
    (code ≠ DXGI_FORMAT_B8G8R8A8_UNORM → code ≠ DXGI_FORMAT_R8G8B8A8_UNORM →
      code ≠ DXGI_FORMAT_B8G8R8X8_UNORM → code ≠ 122 →
      gst_spout_src_dxgi_format_to_gst code = GstVideoFormat.UNKNOWN ∧
      resolve_video_format code = GstVideoFormat.BGRA) ∧
    (∀ s e name w h, (connect_success s e name w h code).video_info.finfo =
      resolve_video_format code) ∧
    (∀ s e t, e.sender_format = code →
      (update_caps s e t).st.video_info.finfo = resolve_video_format code) := by
  refine ⟨?_, ?_, by decide, by decide, by decide, by decide, ?_, ?_, ?_⟩
  · by_cases h1 : code = DXGI_FORMAT_B8G8R8A8_UNORM
    · rw [h1]; decide
    · by_cases h2 : code = DXGI_FORMAT_R8G8B8A8_UNORM
      · rw [h2]; decide
      · by_cases h3 : code = DXGI_FORMAT_B8G8R8X8_UNORM
        · rw [h3]; decide
        · by_cases h4 : code = 122
          · rw [h4]; decide
          · simp [resolve_video_format, gst_spout_src_dxgi_format_to_gst, h1, h2, h3, h4]
  · by_cases h1 : code = DXGI_FORMAT_B8G8R8A8_UNORM
    · rw [h1]; decide
    · by_cases h2 : code = DXGI_FORMAT_R8G8B8A8_UNORM
      · rw [h2]; decide
      · by_cases h3 : code = DXGI_FORMAT_B8G8R8X8_UNORM
        · rw [h3]; decide
        · by_cases h4 : code = 122
          · rw [h4]; decide
          · simp [resolve_video_format, gst_spout_src_dxgi_format_to_gst, GST_SPOUT_SRC_FORMATS, h1, h2,
              h3, h4]
  · intro h1 h2 h3 h4
    simp [resolve_video_format, gst_spout_src_dxgi_format_to_gst, h1, h2, h3, h4]
  · intro s e name w h
    rfl
  · intro s e t hf
    rw [← hf]; rfl

/-- C5, witness: code 2 (a 128-bit float format) is not recognised and resolves
to BGRA. -/
theorem resolved_format_never_unknown_witness :
    (2 ≠ DXGI_FORMAT_B8G8R8A8_UNORM ∧ 2 ≠ DXGI_FORMAT_R8G8B8A8_UNORM ∧
      2 ≠ DXGI_FORMAT_B8G8R8X8_UNORM ∧ 2 ≠ 122) ∧
    gst_spout_src_dxgi_format_to_gst 2 = GstVideoFormat.UNKNOWN ∧
    resolve_video_format 2 = GstVideoFormat.BGRA :=
  ⟨⟨by decide, by decide, by decide, by decide⟩,
    (resolved_format_never_unknown 2).2.2.2.2.2.2.1 (by decide) (by decide) (by decide)
      (by decide)⟩

/-- C6: disconnect is idempotent on the component state: for every state `s`,
disconnecting the state left by disconnect gives that same state, which is an
already-disconnected one; and on every already-disconnected state (not
connected, first frame pending, empty connected sender name, no texture view
and no shared texture) disconnect leaves every field unchanged. -/
theorem disconnect_idempotent (s : GstSpoutSrcPrivate) :
    (gst_spout_src_disconnect (gst_spout_src_disconnect s).st).st =
      (gst_spout_src_disconnect s).st ∧
    already_disconnected (gst_spout_src_disconnect s).st ∧
    (already_disconnected s → (gst_spout_src_disconnect s).st = s) := by
  refine ⟨rfl, ⟨rfl, rfl, rfl, rfl, rfl⟩, ?_⟩
  rintro ⟨h1, h2, h3, h4, h5⟩
  cases s
  simp only at h1 h2 h3 h4 h5
  subst h1 h2 h3 h4 h5
  rfl

/-- C6, witness: the element that holds a transport client and is disconnected. -/
theorem disconnect_idempotent_witness :
    already_disconnected bound ∧ (gst_spout_src_disconnect bound).st = bound := by
  have h : already_disconnected bound := ⟨rfl, rfl, rfl, rfl, rfl⟩
  exact ⟨h, (disconnect_idempotent bound).2.2 h⟩

/-- C7, counterexample: on an already-disconnected state that still holds a
transport client instance, disconnect calls `ReleaseReceiver`; it does so both
the first and the second time. -/
theorem disconnect_again_releases_receiver :
    already_disconnected bound ∧
    Call.ReleaseReceiver ∈ (gst_spout_src_disconnect bound).calls ∧
    Call.ReleaseReceiver ∈
      (gst_spout_src_disconnect (gst_spout_src_disconnect bound).st).calls := by
  refine ⟨⟨rfl, rfl, rfl, rfl, rfl⟩, ?_, ?_⟩
  · simp [gst_spout_src_disconnect, bound, started, GstSpoutSrcPrivate.init]
  · simp [gst_spout_src_disconnect, bound, started, GstSpoutSrcPrivate.init]

/-- C7 (amended): calling disconnect on an already-disconnected state releases
neither the texture view nor the shared texture; it calls `ReleaseReceiver`
exactly when the state holds a transport client instance, and then once. -/
theorem disconnect_again_calls (s : GstSpoutSrcPrivate) (h : already_disconnected s) :
    Call.texture_srv_Release ∉ (gst_spout_src_disconnect s).calls ∧
    Call.shared_texture_Release ∉ (gst_spout_src_disconnect s).calls ∧
    (Call.ReleaseReceiver ∈ (gst_spout_src_disconnect s).calls ↔ s.spout = true) ∧
    (gst_spout_src_disconnect s).calls =
      if s.spout then [Call.lock, Call.ReleaseReceiver, Call.unlock]
      else [Call.lock, Call.unlock] := by
  obtain ⟨_, _, _, h4, h5⟩ := h
  cases hs : s.spout <;> simp [gst_spout_src_disconnect, h4, h5, hs]

/-- C7, witness: without a transport client nothing is released, with one only
the receiver binding is. -/
theorem disconnect_again_calls_witness :
    already_disconnected started ∧
    (gst_spout_src_disconnect started).calls = [Call.lock, Call.unlock] ∧
    already_disconnected bound ∧
    (gst_spout_src_disconnect bound).calls =
      [Call.lock, Call.ReleaseReceiver, Call.unlock] := by
  have h1 : already_disconnected started := ⟨rfl, rfl, rfl, rfl, rfl⟩
  have h2 : already_disconnected bound := ⟨rfl, rfl, rfl, rfl, rfl⟩
  exact ⟨h1, (disconnect_again_calls started h1).2.2.2, h2, (disconnect_again_calls bound h2).2.2.2⟩

/-- C9: in every create cycle with the flushing flag set, the cycle returns
FLUSHING, stores no buffer, only takes and releases the lock (no connect, pull
or pool call) and leaves every state field unchanged; unlock sets the flag and
unlock_stop clears it, each changing no other field, so the cycle after unlock
is cancelled whatever the state was. -/
theorem create_flushing_cancels (s : GstSpoutSrcPrivate) (e : CreateEnv)
    (h : s.flushing = true) :
    (gst_spout_src_create s e).ret = GstFlowReturn.FLUSHING ∧
    (gst_spout_src_create s e).buf = none ∧
    (gst_spout_src_create s e).st = s ∧
    (gst_spout_src_create s e).calls = [Call.lock, Call.unlock] ∧
    (∀ s0 : GstSpoutSrcPrivate,
      (gst_spout_src_unlock s0).st = { s0 with flushing := true } ∧
      (gst_spout_src_unlock_stop s0).st = { s0 with flushing := false } ∧
      (gst_spout_src_create (gst_spout_src_unlock s0).st e).ret = GstFlowReturn.FLUSHING ∧
      (gst_spout_src_unlock_stop (gst_spout_src_unlock s0).st).st.flushing = false) := by
  refine ⟨?_, ?_, ?_, ?_, ?_⟩
  · simp [gst_spout_src_create, h]
  · simp [gst_spout_src_create, h]
  · simp [gst_spout_src_create, h]
  · simp [gst_spout_src_create, h]
  · intro s0
    refine ⟨rfl, rfl, ?_, rfl⟩
    simp [gst_spout_src_create, gst_spout_src_unlock]

/-- C9, witness: the connected element after unlock. -/
theorem create_flushing_cancels_witness :
    (gst_spout_src_unlock streaming).st.flushing = true ∧
    (gst_spout_src_create (gst_spout_src_unlock streaming).st late_cycle).ret =
      GstFlowReturn.FLUSHING ∧
    (gst_spout_src_create (gst_spout_src_unlock streaming).st late_cycle).buf = none ∧
    (gst_spout_src_create (gst_spout_src_unlock streaming).st late_cycle).calls =
      [Call.lock, Call.unlock] := by
  have h := create_flushing_cancels (gst_spout_src_unlock streaming).st late_cycle rfl
  exact ⟨rfl, h.1, h.2.1, h.2.2.2.1⟩

/-- C8, counterexample: a connected element at 29.97 frames per second whose new
timestamp (50) is not greater than the previous one (100) stamps the duration
34482758 ns, which is 10^9 / 29, while floor(10^9 / 29.97) is 33366700. -/
theorem fallback_duration_truncates_rate :
    streaming.flushing = false ∧ streaming.connected = true ∧ streaming.spout = true ∧
    streaming.current_fps = 2997 / 100 ∧
    late_cycle.clock = some 50 ∧
    running_time 50 late_cycle.base_time ≤ streaming.prev_pts ∧
    (gst_spout_src_create streaming late_cycle).ret = GstFlowReturn.OK ∧
    (gst_spout_src_create streaming late_cycle).buf.map GstBuffer.duration = some 34482758 ∧
    ⌊(1000000000 : ℚ) / (2997 / 100)⌋₊ = 33366700 := by
  obtain ⟨t, ht⟩ := create_connected_eq streaming late_cycle rfl rfl rfl
  obtain ⟨hc1, hc2, hc3, hc4⟩ := copy_streaming
  have hlate : running_time 50 late_cycle.base_time ≤
      (gst_spout_src_copy_texture_to_buffer streaming late_cycle.copy).st.prev_pts := by
    rw [hc2]; decide
  obtain ⟨hr, hb⟩ := create_frame_fallback streaming late_cycle t 50 rfl rfl hc1 rfl hlate
  refine ⟨rfl, rfl, rfl, rfl, rfl, by decide, ?_, ?_, ?_⟩
  · rw [ht]; exact hr
  · rw [ht, hb, hc3, frame_duration_eq _ (by norm_num), floor_2997]
    rfl
  · rw [Nat.floor_eq_iff (by norm_num)]; norm_num

/-- C8 (amended): for every real frame whose new timestamp is not greater than
the previous presentation timestamp (or that has no valid previous one), and
every current frame rate `f` with `1 <= f <= 1000`, the cycle succeeds and the
buffer duration is `10^9 / floor(f)` nanoseconds, rounded down; that is
`floor(10^9 / f)`, one frame period, when `f` is an integer, and it is at least
10^6, so neither zero nor negative.  This holds for the frame of a source that
was connected when the cycle began and for one that connected in this cycle. -/
theorem fallback_duration (s : GstSpoutSrcPrivate) (e : CreateEnv) (t : List Call)
    (clock_time : Nat) (hpool : s.pool = true) (hacq : e.acquire = GstFlowReturn.OK)
    (hcopy : (gst_spout_src_copy_texture_to_buffer s e.copy).ret = GstFlowReturn.OK)
    (hclock : e.clock = some clock_time)
    (hlate : running_time clock_time e.base_time ≤
      (gst_spout_src_copy_texture_to_buffer s e.copy).st.prev_pts)
    (h1 : 1 ≤ (gst_spout_src_copy_texture_to_buffer s e.copy).st.current_fps)
    (h2 : (gst_spout_src_copy_texture_to_buffer s e.copy).st.current_fps ≤ 1000) :
    ∃ b, (create_frame s e t).buf = some b ∧ (create_frame s e t).ret = GstFlowReturn.OK ∧
      b.duration =
        1000000000 / ⌊(gst_spout_src_copy_texture_to_buffer s e.copy).st.current_fps⌋₊ ∧
      1000000 ≤ b.duration ∧
      (∀ n : ℕ, (gst_spout_src_copy_texture_to_buffer s e.copy).st.current_fps = n →
        b.duration = 1000000000 / n) ∧
      (s.flushing = false → s.connected = true → s.spout = true →
        (gst_spout_src_create s e).buf = some b ∧
        (gst_spout_src_create s e).ret = GstFlowReturn.OK) ∧
      (∀ s0 : GstSpoutSrcPrivate, s0.flushing = false → (s0.connected && s0.spout) = false →
        (gst_spout_src_connect s0 e.connect).ret = true →
        (gst_spout_src_connect s0 e.connect).st = s → s.connected = true → s.spout = true →
        (gst_spout_src_create s0 e).buf = some b ∧
        (gst_spout_src_create s0 e).ret = GstFlowReturn.OK) := by
  have key := fun t0 => create_frame_fallback s e t0 clock_time hpool hacq hcopy hclock hlate
  have hfloor1 : 1 ≤ ⌊(gst_spout_src_copy_texture_to_buffer s e.copy).st.current_fps⌋₊ :=
    Nat.le_floor (by simpa using h1)
  have hfloor2 : ⌊(gst_spout_src_copy_texture_to_buffer s e.copy).st.current_fps⌋₊ ≤ 1000 :=
    Nat.floor_le_of_le (by simpa using h2)
  refine ⟨_, (key t).2, (key t).1, ?_, ?_, ?_, ?_, ?_⟩
  · exact frame_duration_eq _ h1
  · show 1000000 ≤ frame_duration _
    rw [frame_duration_eq _ h1]
    calc 1000000 = 1000000000 / 1000 := by norm_num
      _ ≤ 1000000000 / ⌊(gst_spout_src_copy_texture_to_buffer s e.copy).st.current_fps⌋₊ :=
        Nat.div_le_div_left hfloor2 hfloor1
  · intro n hn
    show frame_duration _ = _
    rw [frame_duration_eq _ h1, hn, Nat.floor_natCast]
  · intro hflush hconn hspout
    obtain ⟨t1, ht1⟩ := create_connected_eq s e hflush hconn hspout
    rw [ht1]
    exact ⟨(key t1).2, (key t1).1⟩
  · intro s0 hflush hdis hret hst hconn hspout
    obtain ⟨t1, ht1⟩ := create_newly_connected_eq s0 e hflush hdis hret
      (by rw [hst]; exact hconn) (by rw [hst]; exact hspout)
    rw [ht1, hst]
    exact ⟨(key t1).2, (key t1).1⟩

/-- C8, witness: the connected element at 29.97 frames per second, late clock. -/
theorem fallback_duration_witness :
    streaming.pool = true ∧ late_cycle.acquire = GstFlowReturn.OK ∧
    (gst_spout_src_copy_texture_to_buffer streaming late_cycle.copy).ret = GstFlowReturn.OK ∧
    late_cycle.clock = some 50 ∧
    running_time 50 late_cycle.base_time ≤
      (gst_spout_src_copy_texture_to_buffer streaming late_cycle.copy).st.prev_pts ∧
    (1 : ℚ) ≤ (gst_spout_src_copy_texture_to_buffer streaming late_cycle.copy).st.current_fps ∧
    (gst_spout_src_copy_texture_to_buffer streaming late_cycle.copy).st.current_fps ≤ 1000 ∧
    ∃ b, (gst_spout_src_create streaming late_cycle).buf = some b ∧
      b.duration = 1000000000 / 29 ∧ 1000000 ≤ b.duration := by
  obtain ⟨hc1, hc2, hc3, _⟩ := copy_streaming
  have hlate : running_time 50 late_cycle.base_time ≤
      (gst_spout_src_copy_texture_to_buffer streaming late_cycle.copy).st.prev_pts := by
    rw [hc2]; decide
  have h1 : (1 : ℚ) ≤
      (gst_spout_src_copy_texture_to_buffer streaming late_cycle.copy).st.current_fps := by
    rw [hc3]; norm_num
  have h2 : (gst_spout_src_copy_texture_to_buffer streaming late_cycle.copy).st.current_fps ≤
      1000 := by
    rw [hc3]; norm_num
  obtain ⟨b, _, _, hd, hpos, _, hcr, _⟩ :=
    fallback_duration streaming late_cycle [] 50 rfl rfl hc1 rfl hlate h1 h2
  refine ⟨rfl, rfl, hc1, rfl, hlate, h1, h2, b, (hcr rfl rfl rfl).1, ?_, hpos⟩
  rw [hd, hc3, floor_2997]

/-- C10, counterexample: a disconnected element with a pool whose current frame
rate is 29.97 hands out a placeholder of duration 34482758 ns, which is
10^9 / 29, while floor(10^9 / 29.97) is 33366700; and when the acquired buffer
cannot be mapped the cycle still succeeds with a buffer whose content is not
zeroed. -/
theorem placeholder_duration_truncates_rate :
    run_stays_disconnected waiting [idle_cycle] ∧ waiting.pool = true ∧
    placeholder_ready 0 idle_cycle ∧ waiting.current_fps = 2997 / 100 ∧
    (create_run waiting [idle_cycle]).map (fun o => o.buf.map GstBuffer.duration) =
      [some 34482758] ∧
    ⌊(1000000000 : ℚ) / (2997 / 100)⌋₊ = 33366700 ∧
    stays_disconnected waiting unmapped_cycle ∧
    unmapped_cycle.acquire = GstFlowReturn.OK ∧
    (gst_spout_src_create waiting unmapped_cycle).ret = GstFlowReturn.OK ∧
    (gst_spout_src_create waiting unmapped_cycle).buf.map GstBuffer.data =
      some [17, 34, 51, 68] := by
  have hs1 : stays_disconnected waiting idle_cycle := by
    simp [stays_disconnected, waiting, idle_cycle, empty_env, failing_env, started,
      GstSpoutSrcPrivate.init, gst_spout_src_connect]
  have hs2 : stays_disconnected waiting unmapped_cycle := by
    simp [stays_disconnected, waiting, unmapped_cycle, idle_cycle, empty_env, failing_env,
      started, GstSpoutSrcPrivate.init, gst_spout_src_connect]
  have hfps : (gst_spout_src_connect waiting empty_env).st.current_fps = 2997 / 100 := by
    simp [waiting, empty_env, failing_env, started, GstSpoutSrcPrivate.init,
      gst_spout_src_connect]
  obtain ⟨_, _, hb1⟩ := create_stays_disconnected_eq waiting idle_cycle 0 hs1.1 hs1.2.1
    hs1.2.2.1 hs1.2.2.2 rfl rfl rfl
  obtain ⟨hr2, _, hb2⟩ := create_stays_disconnected_eq waiting unmapped_cycle 0 hs2.1 hs2.2.1
    hs2.2.2.1 hs2.2.2.2 rfl rfl rfl
  refine ⟨⟨hs1, trivial⟩, rfl, ⟨rfl, rfl, rfl, by simp [idle_cycle]⟩, rfl, ?_, ?_, hs2, rfl,
    hr2, ?_⟩
  · simp only [create_run, List.map_cons, List.map_nil, hb1, Option.map_some']
    have : frame_duration (gst_spout_src_connect waiting idle_cycle.connect).st.current_fps =
        34482758 := by
      show frame_duration (gst_spout_src_connect waiting empty_env).st.current_fps = 34482758
      rw [hfps, frame_duration_eq _ (by norm_num), floor_2997]
    rw [this]
  · rw [Nat.floor_eq_iff (by norm_num)]; norm_num
  · rw [hb2]; rfl

/-- C10 (amended): for every run of consecutive non-flushing create cycles that
stay disconnected, with a pool available whose acquire succeeds and whose buffer
maps for writing, with non-decreasing clock readings and a fixed base time, each
cycle returns OK with a buffer whose content is all zero bytes, one buffer is
stamped per cycle, the timestamps of successive buffers are non-decreasing, and
each duration is the frame duration of the current frame rate `f`: for
`f >= 1` it is `10^9 / floor(f)` nanoseconds, rounded down, which is one frame
period when `f` is an integer. -/
theorem placeholder_continuity (base : Nat) (s : GstSpoutSrcPrivate) (es : List CreateEnv)
    (hpool : s.pool = true) (hrun : run_stays_disconnected s es)
    (hready : ∀ e ∈ es, placeholder_ready base e)
    (hclock : List.Pairwise (fun a b => a ≤ b) (clock_readings es)) :
    (∀ o ∈ create_run s es, o.ret = GstFlowReturn.OK ∧
      ∃ b, o.buf = some b ∧ (∀ x ∈ b.data, x = 0) ∧
        b.duration = frame_duration o.st.current_fps ∧
        (1 ≤ o.st.current_fps → b.duration = 1000000000 / ⌊o.st.current_fps⌋₊) ∧
        (∀ n : ℕ, 1 ≤ n → o.st.current_fps = n → b.duration = 1000000000 / n)) ∧
    (stamps (create_run s es)).length = es.length ∧
    List.Pairwise (fun a b => a ≤ b) (stamps (create_run s es)) := by
  obtain ⟨h1, h2⟩ := create_run_placeholders base es s hpool hrun hready
  refine ⟨?_, ?_, ?_⟩
  · intro o ho
    obtain ⟨hret, b, hb, hz, hd⟩ := h1 o ho
    refine ⟨hret, b, hb, hz, hd, ?_, ?_⟩
    · intro hf
      rw [hd, frame_duration_eq _ hf]
    · intro n hn hf
      have hq : (1 : ℚ) ≤ o.st.current_fps := by
        rw [hf]; exact_mod_cast hn
      rw [hd, frame_duration_eq _ hq, hf, Nat.floor_natCast]
  · rw [h2, List.length_map, clock_readings, List.length_map]
  · rw [h2]
    exact List.Pairwise.map _ (fun a b hab => running_time_mono a b base hab) hclock

/-- C10, witness: two idle cycles of a pooled element at the default rate, read
at 0 ns and 40 ns. -/
theorem placeholder_continuity_witness :
    pooled.pool = true ∧ run_stays_disconnected pooled [idle_cycle, later_cycle] ∧
    (∀ e ∈ [idle_cycle, later_cycle], placeholder_ready 0 e) ∧
    List.Pairwise (fun a b => a ≤ b) (clock_readings [idle_cycle, later_cycle]) ∧
    (∀ o ∈ create_run pooled [idle_cycle, later_cycle], o.ret = GstFlowReturn.OK) ∧
    List.Pairwise (fun a b => a ≤ b) (stamps (create_run pooled [idle_cycle, later_cycle])) := by
  have hrun : run_stays_disconnected pooled [idle_cycle, later_cycle] := by
    simp [run_stays_disconnected, stays_disconnected, pooled, idle_cycle, later_cycle,
      empty_env, failing_env, started, GstSpoutSrcPrivate.init, gst_spout_src_connect,
      gst_spout_src_create, create_placeholder]
  have hready : ∀ e ∈ [idle_cycle, later_cycle], placeholder_ready 0 e := by
    intro e he
    simp only [List.mem_cons, List.mem_singleton, List.not_mem_nil, or_false] at he
    rcases he with he | he <;> rw [he] <;>
      exact ⟨rfl, rfl, rfl, by simp [idle_cycle, later_cycle]⟩
  have hclock : List.Pairwise (fun a b => a ≤ b) (clock_readings [idle_cycle, later_cycle]) := by
    simp [clock_readings, idle_cycle, later_cycle]
  have h := placeholder_continuity 0 pooled [idle_cycle, later_cycle] rfl hrun hready hclock
  exact ⟨rfl, hrun, hready, hclock, fun o ho => (h.1 o ho).1, h.2.2⟩

/-- C14: for every connected, non-flushing state in which the output buffer is
acquired and the transport pull fails, the create cycle returns OK (not a flow
error) whatever `reconnect_attempts` is, hands no buffer to the caller and
releases the acquired one as its last call, after the failed pull, the marking
of the state as disconnected, disconnect and connect in that order; the state
after the cycle is the one connect leaves on the disconnected state, whose
`reconnect_attempts` is the value the cycle started with, so the counter changes
only through that connect. -/
theorem pull_failure_reconnects (s : GstSpoutSrcPrivate) (e : CreateEnv)
    (h : pull_lost s e) :
    (gst_spout_src_create s e).ret = GstFlowReturn.OK ∧
    (gst_spout_src_create s e).buf = none ∧
    (gst_spout_src_create s e).st =
      (gst_spout_src_connect
        (gst_spout_src_disconnect { s with connected := false }).st e.copy.reconnect).st ∧
    (gst_spout_src_disconnect { s with connected := false }).st.connected = false ∧
    (gst_spout_src_disconnect { s with connected := false }).st.reconnect_attempts =
      s.reconnect_attempts ∧
    ∃ pre, (gst_spout_src_create s e).calls =
      pre ++ ([Call.ReceiveTexture, Call.lock, Call.unlock] ++
        ((gst_spout_src_disconnect { s with connected := false }).calls ++
          ((gst_spout_src_connect
            (gst_spout_src_disconnect { s with connected := false }).st
              e.copy.reconnect).calls ++ [Call.buffer_unref]))) := by
  obtain ⟨hflush, hconn, hspout, hpool, hacq, hmem, htex, hdev, hh, hrecv⟩ := h
  obtain ⟨hcret, hcst, pre, hcalls⟩ :=
    copy_pull_lost_eq s e.copy hconn hspout hmem htex hdev hh hrecv
  obtain ⟨t, ht⟩ := create_connected_eq s e hflush hconn hspout
  have hne : (gst_spout_src_copy_texture_to_buffer s e.copy).ret ≠ GstFlowReturn.OK := by
    rw [hcret]; decide
  obtain ⟨hr, hb, hst, pre2, hc2⟩ := create_frame_copy_fails s e t hpool hacq hne
  rw [ht]
  refine ⟨hr, hb, hst.trans hcst, rfl, rfl, pre2 ++ pre, ?_⟩
  rw [hc2, hcalls]
  simp only [List.append_assoc]

/-- C14, witness: the connected element losing its producer in mid-stream. -/
theorem pull_failure_reconnects_witness :
    pull_lost streaming lost_cycle ∧
    (gst_spout_src_create streaming lost_cycle).ret = GstFlowReturn.OK ∧
    (gst_spout_src_create streaming lost_cycle).buf = none := by
  have h : pull_lost streaming lost_cycle :=
    ⟨rfl, rfl, rfl, rfl, rfl, rfl, rfl, rfl, rfl, rfl⟩
  have h2 := pull_failure_reconnects streaming lost_cycle h
  exact ⟨h, h2.1, h2.2.1⟩

/-- C15: for every non-flushing create cycle that starts disconnected, the cycle
ends at the connection check with the fatal flow error, no buffer and the state
connect left, when connect returned FALSE and `reconnect_attempts` is at least 5
after the attempt; in every other case in which connect did not connect (a soft
failure, that is TRUE without a connection, as after a failed pull that leaves
the counter below 5; no producer; or a FALSE result with the counter below 5)
the cycle does not fail: it continues on the placeholder path and returns OK; so
among the cycles that stay disconnected the flow error is returned if and only
if the attempt was fatal. -/
theorem connection_check (s : GstSpoutSrcPrivate) (e : CreateEnv)
    (hflush : s.flushing = false) (hdis : s.connected = false) :
    (fatal_connect (gst_spout_src_connect s e.connect) →
      (gst_spout_src_create s e).ret = GstFlowReturn.ERROR ∧
      (gst_spout_src_create s e).buf = none ∧
      (gst_spout_src_create s e).st = (gst_spout_src_connect s e.connect).st) ∧
    (¬ fatal_connect (gst_spout_src_connect s e.connect) →
      (gst_spout_src_connect s e.connect).st.connected = false →
      (gst_spout_src_create s e).ret = GstFlowReturn.OK ∧
      (gst_spout_src_create s e).st = (gst_spout_src_connect s e.connect).st ∧
      ∃ t, gst_spout_src_create s e =
        create_placeholder (gst_spout_src_connect s e.connect).st e t) ∧
    ((gst_spout_src_connect s e.connect).st.connected = false →
      ((gst_spout_src_create s e).ret = GstFlowReturn.ERROR ↔
        fatal_connect (gst_spout_src_connect s e.connect))) ∧
    ((gst_spout_src_connect s e.connect).ret = true →
      (gst_spout_src_connect s e.connect).st.connected = false →
      (gst_spout_src_create s e).ret = GstFlowReturn.OK) ∧
    (pull_fails s e.connect →
      (gst_spout_src_connect s e.connect).st.reconnect_attempts < 5 →
      (gst_spout_src_connect s e.connect).ret = true ∧
      (gst_spout_src_create s e).ret = GstFlowReturn.OK) ∧
    (no_producer s e.connect → (gst_spout_src_create s e).ret = GstFlowReturn.OK) ∧
    ((gst_spout_src_connect s e.connect).ret = false →
      (gst_spout_src_connect s e.connect).st.reconnect_attempts < 5 →
      (gst_spout_src_create s e).ret = GstFlowReturn.OK) := by
  have hfatal : fatal_connect (gst_spout_src_connect s e.connect) →
      (gst_spout_src_create s e).ret = GstFlowReturn.ERROR ∧
      (gst_spout_src_create s e).buf = none ∧
      (gst_spout_src_create s e).st = (gst_spout_src_connect s e.connect).st := by
    intro hf
    have hf2 : (gst_spout_src_connect s e.connect).ret = false ∧
        (gst_spout_src_connect s e.connect).st.reconnect_attempts ≥ 5 := hf
    unfold gst_spout_src_create
    simp only [hflush, hdis, Bool.false_and, hf2, and_self, if_true, Bool.false_eq_true,
      if_false]
  have hsoft : ¬ fatal_connect (gst_spout_src_connect s e.connect) →
      (gst_spout_src_connect s e.connect).st.connected = false →
      (gst_spout_src_create s e).ret = GstFlowReturn.OK ∧
      (gst_spout_src_create s e).st = (gst_spout_src_connect s e.connect).st ∧
      ∃ t, gst_spout_src_create s e =
        create_placeholder (gst_spout_src_connect s e.connect).st e t := by
    intro hnf hc
    have hnf2 : ¬ ((gst_spout_src_connect s e.connect).ret = false ∧
        (gst_spout_src_connect s e.connect).st.reconnect_attempts ≥ 5) := hnf
    have key : ∃ t, gst_spout_src_create s e =
        create_placeholder (gst_spout_src_connect s e.connect).st e t := by
      unfold gst_spout_src_create
      simp only [hflush, hdis, Bool.false_and, hnf2, hc, if_true, if_false, Bool.false_eq_true]
      exact ⟨_, rfl⟩
    obtain ⟨t, ht⟩ := key
    refine ⟨?_, ?_, t, ht⟩
    · rw [ht]; exact (create_placeholder_ret_st _ _ _).1
    · rw [ht]; exact (create_placeholder_ret_st _ _ _).2
  refine ⟨hfatal, hsoft, ?_, ?_, ?_, ?_, ?_⟩
  · intro hc
    constructor
    · intro hret
      by_contra hnf
      have := (hsoft hnf hc).1
      rw [this] at hret
      exact GstFlowReturn.noConfusion hret
    · intro hf
      exact (hfatal hf).1
  · intro hret hc
    have hnf : ¬ fatal_connect (gst_spout_src_connect s e.connect) := by
      intro hf
      rw [hf.1] at hret
      exact Bool.noConfusion hret
    exact (hsoft hnf hc).1
  · intro hpf hlt
    obtain ⟨hret, hst⟩ := connect_pull_fails_eq s e.connect hpf
    have hra : (gst_spout_src_connect s e.connect).st.reconnect_attempts =
        attempts_after_warning e.connect.log_warning s.reconnect_attempts := by rw [hst]
    rw [hra] at hlt
    refine ⟨?_, ?_⟩
    · rw [hret]; exact decide_eq_true hlt
    · rw [(create_pull_fails_eq s e hflush hdis hpf).2, if_pos hlt]
  · intro hnp
    exact (create_no_producer_eq s e hflush hdis hnp).2
  · intro hret hlt
    have hc : (gst_spout_src_connect s e.connect).st.connected = false := by
      rw [connect_false_connected s e.connect hret]; exact hdis
    have hnf : ¬ fatal_connect (gst_spout_src_connect s e.connect) := by
      intro hf
      exact absurd hlt (Nat.not_lt.mpr hf.2)
    exact (hsoft hnf hc).1

/-- C15, witness: from the counter at 4, a failed pull that is counted (warnings
are logged) is fatal; the same failed pull at the default threshold is not
counted and the cycle returns OK; a device that does not bind gives FALSE with
the counter at 4 and the cycle returns OK. -/
theorem connection_check_witness :
    (strained.flushing = false ∧ strained.connected = false) ∧
    fatal_connect (gst_spout_src_connect strained logged_cycle.connect) ∧
    (gst_spout_src_create strained logged_cycle).ret = GstFlowReturn.ERROR ∧
    (gst_spout_src_create strained logged_cycle).buf = none ∧
    (gst_spout_src_create strained logged_cycle).st.reconnect_attempts = 5 ∧
    pull_fails strained failing_cycle.connect ∧
    (gst_spout_src_connect strained failing_cycle.connect).st.reconnect_attempts = 4 ∧
    (gst_spout_src_connect strained failing_cycle.connect).ret = true ∧
    (gst_spout_src_create strained failing_cycle).ret = GstFlowReturn.OK ∧
    (gst_spout_src_connect strained unbound_cycle.connect).ret = false ∧
    (gst_spout_src_connect strained unbound_cycle.connect).st.reconnect_attempts < 5 ∧
    (gst_spout_src_create strained unbound_cycle).ret = GstFlowReturn.OK := by
  have hf : fatal_connect (gst_spout_src_connect strained logged_cycle.connect) := by
    simp [fatal_connect, gst_spout_src_connect, connect_failed, attempts_after_warning,
      strained, started, logged_cycle, idle_cycle, logged_env, failing_env,
      GstSpoutSrcPrivate.init]
  have hra : (gst_spout_src_connect strained logged_cycle.connect).st.reconnect_attempts =
      5 := by
    simp [gst_spout_src_connect, connect_failed, attempts_after_warning,
      strained, started, logged_cycle, idle_cycle, logged_env, failing_env,
      GstSpoutSrcPrivate.init]
  have hp : pull_fails strained failing_cycle.connect := by
    simp [pull_fails, binds, strained, started, failing_cycle, idle_cycle, failing_env,
      GstSpoutSrcPrivate.init]
  have h4 : (gst_spout_src_connect strained failing_cycle.connect).st.reconnect_attempts =
      4 := by
    simp [gst_spout_src_connect, connect_failed, attempts_after_warning,
      strained, started, failing_cycle, idle_cycle, failing_env, GstSpoutSrcPrivate.init]
  have hr : (gst_spout_src_connect strained unbound_cycle.connect).ret = false := by
    simp [gst_spout_src_connect, strained, started, unbound_cycle, unbound_env, idle_cycle,
      failing_env, GstSpoutSrcPrivate.init]
  have hl : (gst_spout_src_connect strained unbound_cycle.connect).st.reconnect_attempts < 5 := by
    simp [gst_spout_src_connect, strained, started, unbound_cycle, unbound_env, idle_cycle,
      failing_env, GstSpoutSrcPrivate.init]
  have hfat := (connection_check strained logged_cycle rfl rfl).1 hf
  have hsoft := (connection_check strained failing_cycle rfl rfl).2.2.2.2.1 hp
    (by rw [h4]; decide)
  refine ⟨⟨rfl, rfl⟩, hf, hfat.1, hfat.2.1, ?_, hp, h4, hsoft.1, hsoft.2, hr, hl,
    (connection_check strained unbound_cycle rfl rfl).2.2.2.2.2.2 hr hl⟩
  rw [hfat.2.2, hra]

/-- C19: for every real frame stamped with a new timestamp `t` (the clock is
present), when the previous presentation timestamp `p` is valid and `t > p` the
buffer duration is exactly `t - p`; the fallback duration is the duration when
`t <= p` or when `p` is not valid.  This holds for the frame of a source that
was connected when the cycle began and for one that connected in this cycle. -/
theorem duration_from_timestamps (s : GstSpoutSrcPrivate) (e : CreateEnv) (t : List Call)
    (clock_time : Nat) (hpool : s.pool = true) (hacq : e.acquire = GstFlowReturn.OK)
    (hcopy : (gst_spout_src_copy_texture_to_buffer s e.copy).ret = GstFlowReturn.OK)
    (hclock : e.clock = some clock_time) :
    ∃ b, (create_frame s e t).buf = some b ∧
      b.pts = running_time clock_time e.base_time ∧
      (GST_CLOCK_TIME_IS_VALID s.prev_pts = true → b.pts > s.prev_pts →
        b.duration = b.pts - s.prev_pts ∧ s.prev_pts + b.duration = b.pts) ∧
      ((GST_CLOCK_TIME_IS_VALID s.prev_pts = false ∨ b.pts ≤ s.prev_pts) →
        b.duration =
          frame_duration (gst_spout_src_copy_texture_to_buffer s e.copy).st.current_fps) ∧
      (s.flushing = false → s.connected = true → s.spout = true →
        (gst_spout_src_create s e).buf = some b) ∧
      (∀ s0 : GstSpoutSrcPrivate, s0.flushing = false → (s0.connected && s0.spout) = false →
        (gst_spout_src_connect s0 e.connect).ret = true →
        (gst_spout_src_connect s0 e.connect).st = s → s.connected = true → s.spout = true →
        (gst_spout_src_create s0 e).buf = some b ∧ s.prev_pts = s0.prev_pts) := by
  have key := fun t0 => create_frame_stamped s e t0 clock_time hpool hacq hcopy hclock
  have hp := (copy_preserves_timing s e.copy).2
  refine ⟨_, (key t).2.1, rfl, ?_, ?_, ?_, ?_⟩
  · intro hv hgt
    have hgt2 : running_time clock_time e.base_time > s.prev_pts := hgt
    simp only [hp, hv, if_true, hgt2]
    exact ⟨trivial, by omega⟩
  · intro h
    rcases h with hv | hle
    · simp only [hp, hv, Bool.false_eq_true, if_false]
    · have hle2 : ¬ running_time clock_time e.base_time > s.prev_pts := Nat.not_lt.mpr hle
      simp only [hp, hle2, if_false, ite_self]
  · intro hflush hconn hspout
    obtain ⟨t1, ht1⟩ := create_connected_eq s e hflush hconn hspout
    rw [ht1]
    exact (key t1).2.1
  · intro s0 hflush hdis hret hst hconn hspout
    obtain ⟨t1, ht1⟩ := create_newly_connected_eq s0 e hflush hdis hret
      (by rw [hst]; exact hconn) (by rw [hst]; exact hspout)
    rw [ht1, hst]
    refine ⟨(key t1).2.1, ?_⟩
    rw [← hst]
    exact (connect_preserves_timing s0 e.connect).2

/-- C19, witness: previous timestamp 100, new timestamp 250, duration 150. -/
theorem duration_from_timestamps_witness :
    streaming.pool = true ∧ on_time_cycle.acquire = GstFlowReturn.OK ∧
    (gst_spout_src_copy_texture_to_buffer streaming on_time_cycle.copy).ret =
      GstFlowReturn.OK ∧
    on_time_cycle.clock = some 250 ∧
    GST_CLOCK_TIME_IS_VALID streaming.prev_pts = true ∧
    ∃ b, (gst_spout_src_create streaming on_time_cycle).buf = some b ∧ b.pts = 250 ∧
      b.duration = 150 := by
  have hc : (gst_spout_src_copy_texture_to_buffer streaming on_time_cycle.copy).ret =
      GstFlowReturn.OK := copy_streaming.1
  have hv : GST_CLOCK_TIME_IS_VALID streaming.prev_pts = true := by decide
  obtain ⟨b, _, hpts, hdiff, _, hcr, _⟩ :=
    duration_from_timestamps streaming on_time_cycle [] 250 rfl rfl hc rfl
  have hp : b.pts = 250 := by rw [hpts]; decide
  have hd := (hdiff hv (by rw [hp]; decide)).1
  refine ⟨rfl, rfl, hc, rfl, hv, b, hcr rfl rfl rfl, hp, ?_⟩
  rw [hd, hp]
  decide

/-- C20: in every create cycle that reads the clock `c` with base time `b`, both
below 2^64, every buffer handed over carries the timestamp `c - b` when `c > b`
(it is the unsigned 64-bit difference, and adding `b` back gives `c`, so nothing
wrapped) and 0 otherwise, and the timestamp is below 2^64.  A buffer is handed
over and stamped so on the placeholder path (the cycle stays disconnected and
the pool hands out a buffer) and on the real-frame path (the buffer is acquired
and the pull succeeds), both for a source that was connected when the cycle
began, where the timestamp is also recorded as `prev_pts`, and for one that
connected in this cycle. -/
theorem timestamp_clamped (s : GstSpoutSrcPrivate) (e : CreateEnv) (c b : Nat)
    (hc : c < 2 ^ 64) (hb : b < 2 ^ 64) (hclock : e.clock = some c)
    (hbase : e.base_time = b) :
    (∀ buf, (gst_spout_src_create s e).buf = some buf →
      buf.pts = (if c > b then c - b else 0) ∧
      (c > b → buf.pts = guint64_sub c b ∧ buf.pts + b = c) ∧
      (c ≤ b → buf.pts = 0) ∧ buf.pts < 2 ^ 64) ∧
    (stays_disconnected s e → s.pool = true → e.acquire = GstFlowReturn.OK →
      ∃ buf, (gst_spout_src_create s e).buf = some buf ∧
        buf.pts = if c > b then c - b else 0) ∧
    (s.flushing = false → s.connected = true → s.spout = true → s.pool = true →
      e.acquire = GstFlowReturn.OK →
      (gst_spout_src_copy_texture_to_buffer s e.copy).ret = GstFlowReturn.OK →
      ∃ buf, (gst_spout_src_create s e).buf = some buf ∧
        buf.pts = (if c > b then c - b else 0) ∧
        (gst_spout_src_create s e).st.prev_pts = if c > b then c - b else 0) ∧
    (s.flushing = false → (s.connected && s.spout) = false →
      (gst_spout_src_connect s e.connect).ret = true →
      (gst_spout_src_connect s e.connect).st.connected = true →
      (gst_spout_src_connect s e.connect).st.spout = true →
      s.pool = true → e.acquire = GstFlowReturn.OK →
      (gst_spout_src_copy_texture_to_buffer (gst_spout_src_connect s e.connect).st
        e.copy).ret = GstFlowReturn.OK →
      ∃ buf, (gst_spout_src_create s e).buf = some buf ∧
        buf.pts = if c > b then c - b else 0) := by
  have hrt : running_time c e.base_time = if c > b then c - b else 0 := by
    rw [hbase]; rfl
  refine ⟨?_, ?_, ?_, ?_⟩
  · intro buf hbuf
    have hpts : buf.pts = if c > b then c - b else 0 := by
      obtain ⟨s1, t, _, _, _, h⟩ := create_cases s e
      rcases h with ⟨hnone, _, _⟩ | hpl | hfr
      · rw [hnone] at hbuf
        exact Option.noConfusion hbuf
      · rw [hpl] at hbuf
        rw [create_placeholder_pts s1 e t c buf hclock hbuf, hrt]
      · rw [hfr] at hbuf
        rw [create_frame_pts s1 e t c buf hclock hbuf, hrt]
    refine ⟨hpts, ?_, ?_, ?_⟩
    · intro h
      have h1 : buf.pts = c - b := by rw [hpts, if_pos h]
      have h2 : c + 2 ^ 64 - b = (c - b) + 2 ^ 64 := by omega
      refine ⟨?_, by rw [h1]; omega⟩
      unfold guint64_sub
      rw [h1, h2, Nat.add_mod_right, Nat.mod_eq_of_lt (by omega)]
    · intro h
      rw [hpts, if_neg (Nat.not_lt.mpr h)]
    · rw [hpts]
      split_ifs <;> omega
  · intro hstay hpool hacq
    obtain ⟨hflush, hdis, hstill, hsoft⟩ := hstay
    obtain ⟨_, _, hbuf⟩ :=
      create_stays_disconnected_eq s e c hflush hdis hstill hsoft hpool hacq hclock
    exact ⟨_, hbuf, hrt⟩
  · intro hflush hconn hspout hpool hacq hcopy
    obtain ⟨t1, ht1⟩ := create_connected_eq s e hflush hconn hspout
    obtain ⟨_, hbuf, hst⟩ := create_frame_stamped s e t1 c hpool hacq hcopy hclock
    rw [ht1]
    refine ⟨_, hbuf, hrt, ?_⟩
    rw [hst]
    exact hrt
  · intro hflush hdis hret hconn hspout hpool hacq hcopy
    obtain ⟨t1, ht1⟩ := create_newly_connected_eq s e hflush hdis hret hconn hspout
    have hp : (gst_spout_src_connect s e.connect).st.pool = true := by
      rw [(connect_preserves s e.connect).1]; exact hpool
    obtain ⟨_, hbuf, _⟩ :=
      create_frame_stamped (gst_spout_src_connect s e.connect).st e t1 c hp hacq hcopy hclock
    rw [ht1]
    exact ⟨_, hbuf, hrt⟩

/-- C20, witness: a placeholder cycle read 50 ns on the clock with base time 100
hands over a buffer stamped 0; a real frame read at 250 with base time 100 is
stamped 150, the unsigned difference, and 150 becomes `prev_pts`. -/
theorem timestamp_clamped_witness :
    ((50 : Nat) < 2 ^ 64 ∧ (100 : Nat) < 2 ^ 64 ∧ skewed_cycle.clock = some 50 ∧
      skewed_cycle.base_time = 100) ∧
    (stays_disconnected pooled skewed_cycle ∧ pooled.pool = true ∧
      skewed_cycle.acquire = GstFlowReturn.OK) ∧
    (gst_spout_src_create pooled skewed_cycle).buf.map GstBuffer.pts = some 0 ∧
    ((250 : Nat) < 2 ^ 64 ∧ running_cycle.clock = some 250 ∧
      running_cycle.base_time = 100) ∧
    (streaming.flushing = false ∧ streaming.connected = true ∧ streaming.spout = true ∧
      streaming.pool = true ∧ running_cycle.acquire = GstFlowReturn.OK ∧
      (gst_spout_src_copy_texture_to_buffer streaming running_cycle.copy).ret =
        GstFlowReturn.OK) ∧
    (gst_spout_src_create streaming running_cycle).buf.map GstBuffer.pts = some 150 ∧
    (gst_spout_src_create streaming running_cycle).st.prev_pts = 150 ∧
    guint64_sub 250 100 = 150 := by
  have hstay : stays_disconnected pooled skewed_cycle := by
    simp [stays_disconnected, pooled, skewed_cycle, idle_cycle, empty_env, failing_env, started,
      GstSpoutSrcPrivate.init, gst_spout_src_connect]
  have hcopy : (gst_spout_src_copy_texture_to_buffer streaming running_cycle.copy).ret =
      GstFlowReturn.OK := copy_streaming.1
  have hp := timestamp_clamped pooled skewed_cycle 50 100 (by norm_num) (by norm_num) rfl rfl
  have hr := timestamp_clamped streaming running_cycle 250 100 (by norm_num) (by norm_num)
    rfl rfl
  obtain ⟨b1, hb1, hpts1⟩ := hp.2.1 hstay rfl rfl
  obtain ⟨b2, hb2, hpts2, hprev⟩ := hr.2.2.1 rfl rfl rfl rfl rfl hcopy
  have hsub := ((hr.1 b2 hb2).2.1 (by norm_num)).1
  refine ⟨⟨by norm_num, by norm_num, rfl, rfl⟩, ⟨hstay, rfl, rfl⟩, ?_,
    ⟨by norm_num, rfl, rfl⟩, ⟨rfl, rfl, rfl, rfl, rfl, hcopy⟩, ?_, ?_, ?_⟩
  · rw [hb1, Option.map_some', hpts1]
    rfl
  · rw [hb2, Option.map_some', hpts2]
    rfl
  · rw [hprev]
    rfl
  · rw [← hsub, hpts2]
    rfl

/-- C12: `connected_sender_name` is non-empty only when the state is connected:
the predicate holds in the initial state and is preserved by connect,
disconnect, start, stop, unlock, unlock_stop, the copy step (with its
pull-failure and metadata-update paths) and a whole create cycle; disconnect
and stop establish it from any state. -/
theorem name_invariant (s : GstSpoutSrcPrivate) (h : name_implies_connected s) :
    name_implies_connected GstSpoutSrcPrivate.init ∧
    (∀ e, name_implies_connected (gst_spout_src_connect s e).st) ∧
    (∀ s0, name_implies_connected (gst_spout_src_disconnect s0).st) ∧
    (∀ e, name_implies_connected (gst_spout_src_start s e).st) ∧
    (∀ s0, name_implies_connected (gst_spout_src_stop s0).st) ∧
    name_implies_connected (gst_spout_src_unlock s).st ∧
    name_implies_connected (gst_spout_src_unlock_stop s).st ∧
    (∀ e, name_implies_connected (gst_spout_src_copy_texture_to_buffer s e).st) ∧
    (∀ e, name_implies_connected (gst_spout_src_create s e).st) ∧
    (∀ es, ∀ o ∈ create_run s es, name_implies_connected o.st) := by
  refine ⟨?_, ?_, ?_, ?_, ?_, h, h, ?_, ?_, ?_⟩
  · intro hne
    exact absurd rfl hne
  · intro e
    exact connect_keeps_name_invariant s e h
  · intro s0 hne
    exact absurd rfl hne
  · intro e
    unfold gst_spout_src_start
    by_cases hd : (s.device || e.ensure_device) = false
    · simpa [hd] using h
    · simp only [hd, if_false]
      exact connect_keeps_name_invariant { s with device := true } e.connect h
  · intro s0 hne
    exact absurd rfl hne
  · intro e
    exact copy_keeps_name_invariant s e h
  · intro e
    exact create_keeps_name_invariant s e h
  · intro es
    induction es generalizing s with
    | nil => intro o ho; exact absurd ho (List.not_mem_nil o)
    | cons e es ih =>
      intro o ho
      simp only [create_run, List.mem_cons] at ho
      rcases ho with ho | ho
      · rw [ho]; exact create_keeps_name_invariant s e h
      · exact ih (gst_spout_src_create s e).st (create_keeps_name_invariant s e h) o ho

/-- C12, witness: the connected element keeps the invariant through a lost pull. -/
theorem name_invariant_witness :
    name_implies_connected streaming ∧
    name_implies_connected (gst_spout_src_create streaming lost_cycle).st ∧
    name_implies_connected (gst_spout_src_start streaming live_start).st := by
  have h : name_implies_connected streaming := fun _ => rfl
  exact ⟨h, (name_invariant streaming h).2.2.2.2.2.2.2.2.1 lost_cycle,
    (name_invariant streaming h).2.2.2.1 live_start⟩

/-- C11, evaluation at the failing input: the element connected to "cam", past
its first frame, runs a cycle whose pull succeeds.  Without a metadata-update
signal the cycle hands caps to the negotiation layer twice (lines 1171 and
1261); with one signal it does so three times. -/
theorem caps_published_every_cycle :
    streaming_live.connected = true ∧ streaming_live.first_frame = false ∧
    late_cycle.copy.receive_ok = true ∧ late_cycle.copy.is_updated = false ∧
    publications (gst_spout_src_create streaming_live late_cycle).calls = 2 ∧
    updated_cycle.copy.receive_ok = true ∧ updated_cycle.copy.is_updated = true ∧
    publications (gst_spout_src_create streaming_live updated_cycle).calls = 3 := by
  obtain ⟨hflush, hconn, hspout, ⟨c, hcaps, _⟩, hfirst, hpool, hdev, _⟩ := streaming_live_fields
  have h1 := create_connected_publications streaming_live late_cycle c hflush hconn hspout
    hcaps hfirst hpool rfl rfl rfl hdev rfl rfl
  have h2 := create_connected_publications streaming_live updated_cycle c hflush hconn hspout
    hcaps hfirst hpool rfl rfl rfl hdev rfl rfl
  exact ⟨hconn, hfirst, rfl, rfl, h1, rfl, rfl, h2⟩

/-- C17, evaluation at the failing input: after a successful connection to
"cam" followed by disconnect, and likewise after a successful connection
followed by a lost pull, the state is disconnected and still holds the caps of
that connection; get_caps without a filter answers with those caps, not with the
pad-template caps. -/
theorem get_caps_stale_after_disconnect :
    (gst_spout_src_disconnect streaming_live).st.connected = false ∧
    (∃ c : GstCaps,
      (gst_spout_src_get_caps (gst_spout_src_disconnect streaming_live).st none).ret =
        CapsSet.fixed c ∧ c.info.width = 640 ∧ c.info.height = 480) ∧
    (gst_spout_src_get_caps (gst_spout_src_disconnect streaming_live).st none).ret ≠
      CapsSet.template ∧
    pull_lost streaming_live lost_cycle ∧
    (gst_spout_src_create streaming_live lost_cycle).st.connected = false ∧
    (gst_spout_src_get_caps (gst_spout_src_create streaming_live lost_cycle).st none).ret ≠
      CapsSet.template := by
  obtain ⟨hflush, hconn, hspout, ⟨c, hcaps, hw, hh, _⟩, hfirst, hpool, hdev, _⟩ :=
    streaming_live_fields
  have hd : (gst_spout_src_disconnect streaming_live).st.caps = some c := hcaps
  have hg : (gst_spout_src_get_caps (gst_spout_src_disconnect streaming_live).st none).ret =
      CapsSet.fixed c := by
    simp [gst_spout_src_get_caps, hd]
  have hlost : pull_lost streaming_live lost_cycle :=
    ⟨hflush, hconn, hspout, hpool, rfl, rfl, rfl, hdev, rfl, rfl⟩
  obtain ⟨hcret, hcst, _⟩ :=
    copy_pull_lost_eq streaming_live lost_cycle.copy hconn hspout rfl rfl hdev rfl rfl
  obtain ⟨t, ht⟩ := create_connected_eq streaming_live lost_cycle hflush hconn hspout
  have hne : (gst_spout_src_copy_texture_to_buffer streaming_live lost_cycle.copy).ret ≠
      GstFlowReturn.OK := by
    rw [hcret]; decide
  obtain ⟨_, _, hst, _⟩ := create_frame_copy_fails streaming_live lost_cycle t hpool rfl hne
  have hnp : no_producer
      (gst_spout_src_disconnect { streaming_live with connected := false }).st
      lost_cycle.copy.reconnect :=
    ⟨⟨Or.inl hspout, hdev, rfl, rfl⟩, rfl⟩
  obtain ⟨_, hrst⟩ := connect_no_producer_eq _ _ hnp
  have hfinal : (gst_spout_src_create streaming_live lost_cycle).st =
      { (gst_spout_src_disconnect { streaming_live with connected := false }).st with
        spout := true } := by
    rw [ht, hst, hcst, hrst]
  have hc2 : (gst_spout_src_create streaming_live lost_cycle).st.caps = some c := by
    rw [hfinal]; exact hcaps
  refine ⟨rfl, ⟨c, hg, hw, hh⟩, ?_, hlost, ?_, ?_⟩
  · rw [hg]; exact fun h => CapsSet.noConfusion h
  · rw [hfinal]; rfl
  · simp [gst_spout_src_get_caps, hc2]

/-- C18: in every create cycle the trace of lock operations and caps
publications keeps the lock discipline: the lock is taken only when free,
released only when held, free at the end, and every caps publication
(`set_caps`), at both caps-propagation points and on the metadata-change path,
happens with the lock released; the lock is taken again only by a later call.
The same holds for the copy step, connect and disconnect on their own. -/
theorem caps_published_unlocked (s : GstSpoutSrcPrivate) (e : CreateEnv) :
    lock_discipline (gst_spout_src_create s e).calls ∧
    (∀ pre c post, (gst_spout_src_create s e).calls = pre ++ Call.set_caps c :: post →
      lock_check false pre = some false) ∧
    lock_discipline (gst_spout_src_copy_texture_to_buffer s e.copy).calls ∧
    (∀ pre c post,
      (gst_spout_src_copy_texture_to_buffer s e.copy).calls = pre ++ Call.set_caps c :: post →
      lock_check false pre = some false) ∧
    lock_discipline (gst_spout_src_connect s e.connect).calls ∧
    lock_discipline (gst_spout_src_disconnect s).calls := by
  refine ⟨create_locks s e, ?_, copy_locks s e.copy, ?_, connect_locks s e.connect,
    disconnect_locks s⟩
  · intro pre c post h
    have hl := create_locks s e
    rw [h] at hl
    exact lock_check_before_set_caps pre post c false false hl
  · intro pre c post h
    have hl := copy_locks s e.copy
    rw [h] at hl
    exact lock_check_before_set_caps pre post c false false hl

/-- C18, witness: a connected element without a pool publishes its caps twice
and fails to acquire a buffer; before the second publication the lock has been
taken and released three times. -/
theorem caps_published_unlocked_witness :
    (gst_spout_src_create announced idle_cycle).calls =
      [Call.lock, Call.unlock, Call.lock, Call.unlock, Call.set_caps vga_caps, Call.lock,
        Call.unlock] ++ Call.set_caps vga_caps :: [Call.acquire_buffer] ∧
    lock_check false [Call.lock, Call.unlock, Call.lock, Call.unlock, Call.set_caps vga_caps,
      Call.lock, Call.unlock] = some false := by
  have h : (gst_spout_src_create announced idle_cycle).calls =
      [Call.lock, Call.unlock, Call.lock, Call.unlock, Call.set_caps vga_caps, Call.lock,
        Call.unlock] ++ Call.set_caps vga_caps :: [Call.acquire_buffer] := by
    simp [gst_spout_src_create, create_frame, announced, bound, started, idle_cycle,
      GstSpoutSrcPrivate.init]
  exact ⟨h, (caps_published_unlocked announced idle_cycle).2.1 _ _ _ h⟩

/-- C22, counterexample: stopping the connected element at frame 3 whose previous
timestamp is 100 leaves `frame_number` at 3 and `prev_pts` at 100, a valid
timestamp. -/
theorem stop_keeps_timing :
    streaming.frame_number = 3 ∧ streaming.prev_pts = 100 ∧
    (gst_spout_src_stop streaming).st.frame_number = 3 ∧
    (gst_spout_src_stop streaming).st.prev_pts = 100 ∧
    GST_CLOCK_TIME_IS_VALID (gst_spout_src_stop streaming).st.prev_pts = true :=
  ⟨rfl, rfl, rfl, rfl, by decide⟩

/-- C22 (amended): after stop, for every prior state, the connection state is
reset (`connected = FALSE`, `first_frame = TRUE`, `reconnect_attempts = 0`,
`connected_sender_name` empty) and the transport client, the device, the pool
and the caps are dropped; `frame_number` and `prev_pts` are left as they were
and are reset (`frame_number = 0`, `prev_pts` invalid) by the next start that
succeeds. -/
theorem stop_resets_connection (s : GstSpoutSrcPrivate) :
    (gst_spout_src_stop s).st.connected = false ∧
    (gst_spout_src_stop s).st.first_frame = true ∧
    (gst_spout_src_stop s).st.reconnect_attempts = 0 ∧
    (gst_spout_src_stop s).st.connected_sender_name = "" ∧
    (gst_spout_src_stop s).st.spout = false ∧ (gst_spout_src_stop s).st.device = false ∧
    (gst_spout_src_stop s).st.pool = false ∧ (gst_spout_src_stop s).st.caps = none ∧
    (gst_spout_src_stop s).st.frame_number = s.frame_number ∧
    (gst_spout_src_stop s).st.prev_pts = s.prev_pts ∧
    (∀ e, (gst_spout_src_start (gst_spout_src_stop s).st e).ret = true →
      (gst_spout_src_start (gst_spout_src_stop s).st e).st.frame_number = 0 ∧
      (gst_spout_src_start (gst_spout_src_stop s).st e).st.prev_pts = GST_CLOCK_TIME_NONE ∧
      GST_CLOCK_TIME_IS_VALID (gst_spout_src_start (gst_spout_src_stop s).st e).st.prev_pts =
        false) := by
  refine ⟨rfl, rfl, rfl, rfl, rfl, rfl, rfl, rfl, rfl, rfl, ?_⟩
  intro e hret
  obtain ⟨h1, h2⟩ := start_resets_timing (gst_spout_src_stop s).st e hret
  refine ⟨h1, h2, ?_⟩
  rw [h2]
  decide

/-- C22, witness: the connected element at frame 3 is stopped and started again. -/
theorem stop_resets_connection_witness :
    (gst_spout_src_start (gst_spout_src_stop streaming).st live_start).ret = true ∧
    (gst_spout_src_stop streaming).st.connected = false ∧
    (gst_spout_src_stop streaming).st.frame_number = 3 ∧
    (gst_spout_src_start (gst_spout_src_stop streaming).st live_start).st.frame_number = 0 := by
  have hret : (gst_spout_src_start (gst_spout_src_stop streaming).st live_start).ret = true := by
    simp [gst_spout_src_start, gst_spout_src_stop, live_start]
  have h := stop_resets_connection streaming
  exact ⟨hret, h.1, h.2.2.2.2.2.2.2.2.1, (h.2.2.2.2.2.2.2.2.2.2 live_start hret).1⟩

/-- C21, evaluation at the failing input: a producer reporting 1/2048 frames per
second passes the sanitiser (the rate is positive and not above 1000), and both
connect and metadata-change detection store the frame rate 0/1000, which is not
greater than 0; with the default rate they store 30000/1000. -/
theorem tiny_rate_publishes_zero :
    ((0 : ℚ) < 1 / 2048 ∧ (1 / 2048 : ℚ) ≤ 1000) ∧
    sanitize_fps (1 / 2048) = 1 / 2048 ∧
    pull_succeeds started tiny_env ∧
    (gst_spout_src_connect started tiny_env).st.video_info.fps_n = 0 ∧
    (gst_spout_src_connect started tiny_env).st.video_info.fps_d = 1000 ∧
    (update_caps streaming { quiet_copy with sender_fps := 1 / 2048 } []).st.video_info.fps_n =
      0 ∧
    (update_caps streaming { quiet_copy with sender_fps := 1 / 2048 } []).st.video_info.fps_d =
      1000 ∧
    (make_video_info GstVideoFormat.BGRA 640 480 (sanitize_fps 0)).fps_n = 30000 ∧
    (make_video_info GstVideoFormat.BGRA 640 480 (sanitize_fps 0)).fps_d = 1000 := by
  have h : pull_succeeds started tiny_env := by
    simp [pull_succeeds, binds, started, tiny_env, live_env, failing_env,
      GstSpoutSrcPrivate.init]
  obtain ⟨_, hst⟩ := connect_pull_succeeds_eq started tiny_env h
  have hst2 : (gst_spout_src_connect started tiny_env).st =
      connect_success { started with spout := true } tiny_env
        (tiny_env.active_name.getD "") tiny_env.active_width tiny_env.active_height
        tiny_env.active_format := by
    rcases hst with ⟨hname, _⟩ | ⟨_, hst⟩
    · exact absurd rfl hname
    · exact hst
  have hdef : sanitize_fps 0 = DEFAULT_FRAMERATE := by simp [sanitize_fps]
  refine ⟨by norm_num, tiny_rate_truncates.1, h, ?_, ?_, tiny_rate_truncates.2, rfl, ?_, rfl⟩
  · rw [hst2]
    exact tiny_rate_truncates.2
  · rw [hst2]
    rfl
  · show double_to_int (double_mul (sanitize_fps 0) 1000) = 30000
    rw [hdef]
    exact default_rate_thousandths

/-- C23, evaluation at the failing input: a producer reporting 0.5 frames per
second passes the sanitiser and is stored as current rate; its integer divisor is
0, so the placeholder duration and the fallback duration of a real frame are
both `GST_CLOCK_TIME_NONE`, the value the scaling utility returns when it
refuses a divisor that is not positive, and not a valid duration. -/
theorem sub_unit_rate_divides_by_zero :
    ((0 : ℚ) < 1 / 2 ∧ (1 / 2 : ℚ) ≤ 1000) ∧
    sanitize_fps (1 / 2) = 1 / 2 ∧
    (gst_spout_src_connect started slow_env).st.current_fps = 1 / 2 ∧
    double_to_int (1 / 2) = 0 ∧
    stays_disconnected slow idle_cycle ∧
    (gst_spout_src_create slow idle_cycle).buf.map GstBuffer.duration =
      some GST_CLOCK_TIME_NONE ∧
    (gst_spout_src_create slow_stream late_cycle).buf.map GstBuffer.duration =
      some GST_CLOCK_TIME_NONE ∧
    GST_CLOCK_TIME_IS_VALID GST_CLOCK_TIME_NONE = false := by
  have hsan : sanitize_fps (1 / 2) = 1 / 2 := by norm_num [sanitize_fps]
  have h : pull_succeeds started slow_env := by
    simp [pull_succeeds, binds, started, slow_env, live_env, failing_env,
      GstSpoutSrcPrivate.init]
  obtain ⟨_, hst⟩ := connect_pull_succeeds_eq started slow_env h
  have hfps : (gst_spout_src_connect started slow_env).st.current_fps = 1 / 2 := by
    rcases hst with ⟨hname, _⟩ | ⟨_, hst⟩
    · exact absurd rfl hname
    · rw [hst]
      exact hsan
  have hs : stays_disconnected slow idle_cycle := by
    simp [stays_disconnected, slow, idle_cycle, empty_env, failing_env, started,
      GstSpoutSrcPrivate.init, gst_spout_src_connect]
  have hcf : (gst_spout_src_connect slow empty_env).st.current_fps = 1 / 2 := by
    simp [slow, empty_env, failing_env, started, GstSpoutSrcPrivate.init,
      gst_spout_src_connect]
  obtain ⟨_, _, hb⟩ := create_stays_disconnected_eq slow idle_cycle 0 hs.1 hs.2.1 hs.2.2.1
    hs.2.2.2 rfl rfl rfl
  obtain ⟨t, ht⟩ := create_connected_eq slow_stream late_cycle rfl rfl rfl
  obtain ⟨hc1, hc2, hc3⟩ := copy_slow_stream
  have hlate : running_time 50 late_cycle.base_time ≤
      (gst_spout_src_copy_texture_to_buffer slow_stream late_cycle.copy).st.prev_pts := by
    rw [hc2]; decide
  obtain ⟨_, hb2⟩ := create_frame_fallback slow_stream late_cycle t 50 rfl rfl hc1 rfl hlate
  refine ⟨by norm_num, hsan, hfps, half_rate_duration.1, hs, ?_, ?_, by decide⟩
  · rw [hb]
    show some (frame_duration (gst_spout_src_connect slow empty_env).st.current_fps) = _
    rw [hcf, half_rate_duration.2]
  · rw [ht, hb2, hc3]
    show some (frame_duration (1 / 2)) = _
    rw [half_rate_duration.2]

/-- C24, evaluation at the failing input: with `wait-timeout` set to 4294968 ms,
a value of the property range, the placeholder cycle sleeps 704 microseconds:
4294968 x 1000 = 4294968000 reduced modulo 2^32. -/
theorem long_wait_wraps :
    4294968 ≤ G_MAXUINT ∧ patient.wait_timeout = 4294968 ∧
    stays_disconnected patient idle_cycle ∧
    sleeps (gst_spout_src_create patient idle_cycle).calls = [704] ∧
    4294968 * 1000 = 4294968000 ∧ 4294968000 % 2 ^ 32 = 704 := by
  refine ⟨by decide, rfl, ?_, ?_, by norm_num, by norm_num⟩
  · simp [stays_disconnected, patient, gst_spout_src_set_property, pooled, idle_cycle,
      empty_env, failing_env, started, GstSpoutSrcPrivate.init, gst_spout_src_connect]
  · simp [sleeps, gst_spout_src_create, create_placeholder, patient,
      gst_spout_src_set_property, pooled, idle_cycle, empty_env, failing_env, started,
      GstSpoutSrcPrivate.init, gst_spout_src_connect]

end SpoutSrc
